import Mathlib

/-!
Verification of the heaven_canceller ingestion pipeline specification
against a shallow embedding of its Rust sources.

The embedding mirrors, definition by definition:
  * `squirrel/src/clickhouse_util/convert_transaction.rs`
    (`TransactionConverter::convert`, `is_event`),
  * `squirrel/src/block_parser/file_scanner.rs` (`FileScanner`),
  * `squirrel/src/block_parser/processed_tracker.rs` (`ProcessedTracker`),
  * `squirrel/src/block_parser/block_parser_service.rs`
    (`BlockParserService::process_pending_files`),
  * `syncer/src/sync_checker.rs` (`SyncChecker::compare_hourly`),
  * `utils/src/clickhouse_events.rs` (`vec_to_arrow_batch`, `arrow_batch_to_vec`),
  * `syncer/src/parquet_helper.rs` / `syncer/src/importer.rs`
    (`read_parquet`, `import_parquet`).

Machine integers are modelled as `Nat`/`Int` with explicit `% 2^32`
where the source performs a narrowing cast.  Account keys and
signatures are byte lists; the external base58 encoder
(`common::cached_bs58`) is passed in as a function argument where the
source calls `global_bs58()`.  The proto instruction tree produced by
the external `proto_lib` crate is modelled with exactly the fields the
sources read; proto payload variants that `convert` never inspects are
collapsed into a single `otherVariant` constructor, which is faithful
because the source only ever pattern-matches the listed variants and
treats every other payload as an anonymous `Some`.
-/

/-- Raw byte strings (signatures, 32-byte account keys). -/
abbrev Bytes := List Nat

/-- Rust `bool as u8`. -/
def boolToU8 (b : Bool) : Nat := if b then 1 else 0

/-- Rust `i64 as u32` (two's-complement truncation to the low 32 bits). -/
def i64AsU32 (t : Int) : Nat := (t % (2 ^ 32 : Int)).toNat

/-- Rust `u64 as u32`. -/
def u64AsU32 (n : Nat) : Nat := n % 2 ^ 32

/-! ## Proto payloads (fields read by `TransactionConverter::convert`) -/

/-- Payload of `Parsed::PumpfunTradeEvent`. -/
structure TradeEvent where
  mint : Bytes
  sol_amount : Nat
  token_amount : Nat
  is_buy : Bool
  user : Bytes
  timestamp : Int
  virtual_sol_reserves : Nat
  virtual_token_reserves : Nat
  real_sol_reserves : Nat
  real_token_reserves : Nat
  fee_recipient : Bytes
  fee_basis_points : Nat
  fee : Nat
  creator : Bytes
  creator_fee_basis_points : Nat
  creator_fee : Nat
  track_volume : Bool
  total_unclaimed_tokens : Nat
  total_claimed_tokens : Nat
  current_sol_volume : Nat
  last_update_timestamp : Int
deriving DecidableEq, Repr

/-- Payload of `Parsed::PumpfunCreateEvent`. -/
structure CreateEvent where
  name : String
  symbol : String
  uri : String
  mint : Bytes
  bonding_curve : Bytes
  user : Bytes
  creator : Bytes
  timestamp : Int
  virtual_token_reserves : Nat
  virtual_sol_reserves : Nat
  real_token_reserves : Nat
  token_total_supply : Nat
deriving DecidableEq, Repr

/-- Payload of `Parsed::PumpfunMigrationEvent`. -/
structure MigrationEvent where
  user : Bytes
  mint : Bytes
  mint_amount : Nat
  sol_amount : Nat
  pool_migration_fee : Nat
  bonding_curve : Bytes
  timestamp : Int
  pool : Bytes
deriving DecidableEq, Repr

/-- Payload of `Parsed::PumpfunAmmBuyEvent`. -/
structure AmmBuyEvent where
  timestamp : Int
  base_amount_out : Nat
  max_quote_amount_in : Nat
  user_base_token_reserves : Nat
  user_quote_token_reserves : Nat
  pool_base_token_reserves : Nat
  pool_quote_token_reserves : Nat
  quote_amount_in : Nat
  lp_fee_basis_points : Nat
  lp_fee : Nat
  protocol_fee_basis_points : Nat
  protocol_fee : Nat
  quote_amount_in_with_lp_fee : Nat
  user_quote_amount_in : Nat
  coin_creator : Bytes
  coin_creator_fee_basis_points : Nat
  coin_creator_fee : Nat
  track_volume : Bool
  total_unclaimed_tokens : Nat
  total_claimed_tokens : Nat
  current_sol_volume : Nat
  last_update_timestamp : Int
deriving DecidableEq, Repr

/-- Accounts carried by the `Parsed::PumpfunAmmBuy` action. -/
structure AmmBuyAccounts where
  base_mint : Bytes
  quote_mint : Bytes
  pool : Bytes
  user : Bytes
  user_base_token_account : Bytes
  user_quote_token_account : Bytes
  protocol_fee_recipient : Bytes
  protocol_fee_recipient_token_account : Bytes
deriving DecidableEq, Repr

/-- Payload of the `Parsed::PumpfunAmmBuy` action instruction. -/
structure AmmBuy where
  accounts : Option AmmBuyAccounts
  is_main_pool : Bool
deriving DecidableEq, Repr

/-- Payload of `Parsed::PumpfunAmmSellEvent`. -/
structure AmmSellEvent where
  timestamp : Int
  base_amount_in : Nat
  min_quote_amount_out : Nat
  user_base_token_reserves : Nat
  user_quote_token_reserves : Nat
  pool_base_token_reserves : Nat
  pool_quote_token_reserves : Nat
  quote_amount_out : Nat
  lp_fee_basis_points : Nat
  lp_fee : Nat
  protocol_fee_basis_points : Nat
  protocol_fee : Nat
  quote_amount_out_without_lp_fee : Nat
  user_quote_amount_out : Nat
  coin_creator : Bytes
  coin_creator_fee_basis_points : Nat
  coin_creator_fee : Nat
deriving DecidableEq, Repr

/-- Accounts carried by the `Parsed::PumpfunAmmSell` action. -/
structure AmmSellAccounts where
  base_mint : Bytes
  quote_mint : Bytes
  pool : Bytes
  user : Bytes
  user_base_token_account : Bytes
  user_quote_token_account : Bytes
  protocol_fee_recipient : Bytes
  protocol_fee_recipient_token_account : Bytes
deriving DecidableEq, Repr

/-- Payload of the `Parsed::PumpfunAmmSell` action instruction. -/
structure AmmSell where
  accounts : Option AmmSellAccounts
  is_main_pool : Bool
deriving DecidableEq, Repr

/-- Payload of `Parsed::PumpfunAmmDepositEvent`. -/
structure AmmDepositEvent where
  timestamp : Int
  lp_token_amount_out : Nat
  max_base_amount_in : Nat
  max_quote_amount_in : Nat
  user_base_token_reserves : Nat
  user_quote_token_reserves : Nat
  pool_base_token_reserves : Nat
  pool_quote_token_reserves : Nat
  base_amount_in : Nat
  quote_amount_in : Nat
  lp_mint_supply : Nat
deriving DecidableEq, Repr

/-- Accounts carried by the `Parsed::PumpfunAmmDeposit` action. -/
structure AmmDepositAccounts where
  base_mint : Bytes
  quote_mint : Bytes
  pool : Bytes
  user : Bytes
  user_base_token_account : Bytes
  user_quote_token_account : Bytes
  user_pool_token_account : Bytes
deriving DecidableEq, Repr

/-- Payload of the `Parsed::PumpfunAmmDeposit` action instruction. -/
structure AmmDeposit where
  accounts : Option AmmDepositAccounts
  is_main_pool : Bool
deriving DecidableEq, Repr

/-- Payload of `Parsed::PumpfunAmmWithdrawEvent`. -/
structure AmmWithdrawEvent where
  timestamp : Int
  lp_token_amount_in : Nat
  min_base_amount_out : Nat
  min_quote_amount_out : Nat
  user_base_token_reserves : Nat
  user_quote_token_reserves : Nat
  pool_base_token_reserves : Nat
  pool_quote_token_reserves : Nat
  base_amount_out : Nat
  quote_amount_out : Nat
  lp_mint_supply : Nat
deriving DecidableEq, Repr

/-- Accounts carried by the `Parsed::PumpfunAmmWithdraw` action. -/
structure AmmWithdrawAccounts where
  base_mint : Bytes
  quote_mint : Bytes
  pool : Bytes
  user : Bytes
  user_base_token_account : Bytes
  user_quote_token_account : Bytes
  user_pool_token_account : Bytes
deriving DecidableEq, Repr

/-- Payload of the `Parsed::PumpfunAmmWithdraw` action instruction. -/
structure AmmWithdraw where
  accounts : Option AmmWithdrawAccounts
  is_main_pool : Bool
deriving DecidableEq, Repr

/-- Payload of `Parsed::PumpfunAmmCreatePoolEvent`. -/
structure AmmCreatePoolEvent where
  timestamp : Int
  index : Nat
  base_mint_decimals : Nat
  quote_mint_decimals : Nat
  base_amount_in : Nat
  quote_amount_in : Nat
  pool_base_amount : Nat
  pool_quote_amount : Nat
  minimum_liquidity : Nat
  initial_liquidity : Nat
  lp_token_amount_out : Nat
  pool_bump : Nat
  coin_creator : Bytes
deriving DecidableEq, Repr

/-- Accounts carried by the `Parsed::PumpfunAmmCreatePool` action. -/
structure AmmCreatePoolAccounts where
  creator : Bytes
  base_mint : Bytes
  quote_mint : Bytes
  pool : Bytes
  lp_mint : Bytes
  user_base_token_account : Bytes
  user_quote_token_account : Bytes
deriving DecidableEq, Repr

/-- Payload of the `Parsed::PumpfunAmmCreatePool` action instruction. -/
structure AmmCreatePool where
  accounts : Option AmmCreatePoolAccounts
  is_main_pool : Bool
deriving DecidableEq, Repr

/-- The `instruction::Parsed` oneof of `proto_lib`, restricted to the
variants `TransactionConverter::convert` pattern-matches; all remaining
proto variants (PumpfunBuy, PumpfunSell, PumpfunCreate, ...) are
collapsed into `otherVariant` since the converter only ever observes
them as an anonymous `Some` payload. -/
inductive Parsed where
  | pumpfunTradeEvent (e : TradeEvent)
  | pumpfunCreateEvent (e : CreateEvent)
  | pumpfunMigrationEvent (e : MigrationEvent)
  | pumpfunAmmBuyEvent (e : AmmBuyEvent)
  | pumpfunAmmSellEvent (e : AmmSellEvent)
  | pumpfunAmmDepositEvent (e : AmmDepositEvent)
  | pumpfunAmmWithdrawEvent (e : AmmWithdrawEvent)
  | pumpfunAmmCreatePoolEvent (e : AmmCreatePoolEvent)
  | pumpfunAmmBuy (a : AmmBuy)
  | pumpfunAmmSell (a : AmmSell)
  | pumpfunAmmDeposit (a : AmmDeposit)
  | pumpfunAmmWithdraw (a : AmmWithdraw)
  | pumpfunAmmCreatePool (a : AmmCreatePool)
  | otherVariant (tag : String)
deriving DecidableEq, Repr

/-- `proto_lib::transaction::solana::Instruction`: a type tag string
(`r#type`, here `ty`) plus an optional parsed payload. -/
structure Instruction where
  ty : String
  parsed : Option Parsed
deriving DecidableEq, Repr

/-- `proto_lib::transaction::solana::Transaction` (fields read by the
converter). -/
structure Transaction where
  signature : Bytes
  slot : Nat
  index : Nat
  instructions : List Instruction
deriving DecidableEq, Repr

/-! ## Event row schemas (`utils/src/clickhouse_events.rs`; the copy in
`squirrel/src/clickhouse_util/clickhouse_events.rs` is field-for-field
identical) -/

/-- Row schema `pumpfun_trade_event_v2`. -/
structure PumpfunTradeEventV2 where
  signature : String
  slot : Nat
  transaction_index : Nat
  instruction_index : Nat
  mint : String
  sol_amount : Nat
  token_amount : Nat
  is_buy : Nat
  user : String
  timestamp : Nat
  virtual_sol_reserves : Nat
  virtual_token_reserves : Nat
  real_sol_reserves : Nat
  real_token_reserves : Nat
  fee_recipient : String
  fee_basis_points : Nat
  fee : Nat
  creator : String
  creator_fee_basis_points : Nat
  creator_fee : Nat
  track_volume : Nat
  total_unclaimed_tokens : Nat
  total_claimed_tokens : Nat
  current_sol_volume : Nat
  last_update_timestamp : Int
deriving DecidableEq, Repr

/-- Row schema `pumpfun_create_event_v2`. -/
structure PumpfunCreateEventV2 where
  signature : String
  slot : Nat
  transaction_index : Nat
  instruction_index : Nat
  name : String
  symbol : String
  uri : String
  mint : String
  bonding_curve : String
  user : String
  creator : String
  timestamp : Nat
  virtual_token_reserves : Nat
  virtual_sol_reserves : Nat
  real_token_reserves : Nat
  token_total_supply : Nat
deriving DecidableEq, Repr

/-- Row schema `pumpfun_migrate_event_v2`. -/
structure PumpfunMigrateEventV2 where
  signature : String
  slot : Nat
  transaction_index : Nat
  instruction_index : Nat
  user : String
  mint : String
  mint_amount : Nat
  sol_amount : Nat
  pool_migration_fee : Nat
  bonding_curve : String
  timestamp : Nat
  pool : String
deriving DecidableEq, Repr

/-- Row schema `pumpfun_amm_buy_event_v2`. -/
structure PumpfunAmmBuyEventV2 where
  signature : String
  slot : Nat
  transaction_index : Nat
  instruction_index : Nat
  base_mint : String
  quote_mint : String
  timestamp : Nat
  base_amount_out : Nat
  max_quote_amount_in : Nat
  user_base_token_reserves : Nat
  user_quote_token_reserves : Nat
  pool_base_token_reserves : Nat
  pool_quote_token_reserves : Nat
  quote_amount_in : Nat
  lp_fee_basis_points : Nat
  lp_fee : Nat
  protocol_fee_basis_points : Nat
  protocol_fee : Nat
  quote_amount_in_with_lp_fee : Nat
  user_quote_amount_in : Nat
  pool : String
  user : String
  user_base_token_account : String
  user_quote_token_account : String
  protocol_fee_recipient : String
  protocol_fee_recipient_token_account : String
  coin_creator : String
  coin_creator_fee_basis_points : Nat
  coin_creator_fee : Nat
  track_volume : Nat
  total_unclaimed_tokens : Nat
  total_claimed_tokens : Nat
  current_sol_volume : Nat
  last_update_timestamp : Int
  is_main_pool : Nat
deriving DecidableEq, Repr

/-- Row schema `pumpfun_amm_sell_event_v2`. -/
structure PumpfunAmmSellEventV2 where
  signature : String
  slot : Nat
  transaction_index : Nat
  instruction_index : Nat
  base_mint : String
  quote_mint : String
  timestamp : Nat
  base_amount_in : Nat
  min_quote_amount_out : Nat
  user_base_token_reserves : Nat
  user_quote_token_reserves : Nat
  pool_base_token_reserves : Nat
  pool_quote_token_reserves : Nat
  quote_amount_out : Nat
  lp_fee_basis_points : Nat
  lp_fee : Nat
  protocol_fee_basis_points : Nat
  protocol_fee : Nat
  quote_amount_out_without_lp_fee : Nat
  user_quote_amount_out : Nat
  pool : String
  user : String
  user_base_token_account : String
  user_quote_token_account : String
  protocol_fee_recipient : String
  protocol_fee_recipient_token_account : String
  coin_creator : String
  coin_creator_fee_basis_points : Nat
  coin_creator_fee : Nat
  is_main_pool : Nat
deriving DecidableEq, Repr

/-- Row schema `pumpfun_amm_create_pool_event_v2`. -/
structure PumpfunAmmCreatePoolEventV2 where
  signature : String
  slot : Nat
  transaction_index : Nat
  instruction_index : Nat
  timestamp : Nat
  index : Nat
  creator : String
  base_mint : String
  quote_mint : String
  base_mint_decimals : Nat
  quote_mint_decimals : Nat
  base_amount_in : Nat
  quote_amount_in : Nat
  pool_base_amount : Nat
  pool_quote_amount : Nat
  minimum_liquidity : Nat
  initial_liquidity : Nat
  lp_token_amount_out : Nat
  pool_bump : Nat
  pool : String
  lp_mint : String
  user_base_token_account : String
  user_quote_token_account : String
  coin_creator : String
  is_main_pool : Nat
deriving DecidableEq, Repr

/-- Row schema `pumpfun_amm_deposit_event_v2`. -/
structure PumpfunAmmDepositEventV2 where
  signature : String
  slot : Nat
  transaction_index : Nat
  instruction_index : Nat
  base_mint : String
  quote_mint : String
  timestamp : Nat
  lp_token_amount_out : Nat
  max_base_amount_in : Nat
  max_quote_amount_in : Nat
  user_base_token_reserves : Nat
  user_quote_token_reserves : Nat
  pool_base_token_reserves : Nat
  pool_quote_token_reserves : Nat
  base_amount_in : Nat
  quote_amount_in : Nat
  lp_mint_supply : Nat
  pool : String
  user : String
  user_base_token_account : String
  user_quote_token_account : String
  user_pool_token_account : String
  is_main_pool : Nat
deriving DecidableEq, Repr

/-- Row schema `pumpfun_amm_withdraw_event_v2`. -/
structure PumpfunAmmWithdrawEventV2 where
  signature : String
  slot : Nat
  transaction_index : Nat
  instruction_index : Nat
  base_mint : String
  quote_mint : String
  timestamp : Nat
  lp_token_amount_in : Nat
  min_base_amount_out : Nat
  min_quote_amount_out : Nat
  user_base_token_reserves : Nat
  user_quote_token_reserves : Nat
  pool_base_token_reserves : Nat
  pool_quote_token_reserves : Nat
  base_amount_out : Nat
  quote_amount_out : Nat
  lp_mint_supply : Nat
  pool : String
  user : String
  user_base_token_account : String
  user_quote_token_account : String
  user_pool_token_account : String
  is_main_pool : Nat
deriving DecidableEq, Repr

/-! ## `TransactionConverter::convert`
(`squirrel/src/clickhouse_util/convert_transaction.rs`) -/

namespace TransactionConverter

/-- Output accumulator of `convert`: the eight caller-provided row
vectors (modelled from empty; the Rust function appends to them) plus
the pending-instruction stack local to `convert` (head = top, matching
`Vec::push`/`Vec::pop` at the back). -/
structure ConvState where
  stack : List Instruction
  trade_rows : List PumpfunTradeEventV2
  create_rows : List PumpfunCreateEventV2
  migrate_rows : List PumpfunMigrateEventV2
  amm_buy_rows : List PumpfunAmmBuyEventV2
  amm_sell_rows : List PumpfunAmmSellEventV2
  amm_create_pool_rows : List PumpfunAmmCreatePoolEventV2
  amm_deposit_rows : List PumpfunAmmDepositEventV2
  amm_withdraw_rows : List PumpfunAmmWithdrawEventV2
deriving DecidableEq, Repr

/-- All-empty initial state. -/
def initState : ConvState :=
  ⟨[], [], [], [], [], [], [], [], []⟩

/-- Source `is_event`: membership of the instruction type tag in the
eight recognized event tags. -/
def is_event (instr : Instruction) : Bool :=
  instr.ty == "PumpFunTradeEvent"
    || instr.ty == "PumpFunCreateEvent"
    || instr.ty == "PumpFunMigrateEvent"
    || instr.ty == "PumpFunAmmBuyEvent"
    || instr.ty == "PumpFunAmmSellEvent"
    || instr.ty == "PumpFunAmmDepositEvent"
    || instr.ty == "PumpFunAmmWithdrawEvent"
    || instr.ty == "PumpFunAmmCreatePoolEvent"

/-- Body of the `match instr.r#type.as_str()` in `convert`, executed
after a pending instruction `prev` has been popped; `e32`/`e64` stand
for `global_bs58().encode_32`/`encode_64`. -/
def pairEvent (e32 e64 : Bytes → String) (tx : Transaction) (i : Nat)
    (instr prev : Instruction) (s : ConvState) : ConvState :=
  match instr.ty with
  | "PumpFunTradeEvent" =>
    match instr.parsed, prev.parsed with
    | some (Parsed.pumpfunTradeEvent te), some _ =>
      { s with trade_rows := s.trade_rows ++
          [{ signature := e64 tx.signature
             slot := tx.slot
             transaction_index := u64AsU32 tx.index
             instruction_index := i
             mint := e32 te.mint
             sol_amount := te.sol_amount
             token_amount := te.token_amount
             is_buy := boolToU8 te.is_buy
             user := e32 te.user
             timestamp := i64AsU32 te.timestamp
             virtual_sol_reserves := te.virtual_sol_reserves
             virtual_token_reserves := te.virtual_token_reserves
             real_sol_reserves := te.real_sol_reserves
             real_token_reserves := te.real_token_reserves
             fee_recipient := e32 te.fee_recipient
             fee_basis_points := te.fee_basis_points
             fee := te.fee
             creator := e32 te.creator
             creator_fee_basis_points := te.creator_fee_basis_points
             creator_fee := te.creator_fee
             track_volume := boolToU8 te.track_volume
             total_unclaimed_tokens := te.total_unclaimed_tokens
             total_claimed_tokens := te.total_claimed_tokens
             current_sol_volume := te.current_sol_volume
             last_update_timestamp := te.last_update_timestamp }] }
    | _, _ => s
  | "PumpFunCreateEvent" =>
    match instr.parsed, prev.parsed with
    | some (Parsed.pumpfunCreateEvent ce), some _ =>
      { s with create_rows := s.create_rows ++
          [{ signature := e64 tx.signature
             slot := tx.slot
             transaction_index := u64AsU32 tx.index
             instruction_index := i
             name := ce.name
             symbol := ce.symbol
             uri := ce.uri
             mint := e32 ce.mint
             bonding_curve := e32 ce.bonding_curve
             user := e32 ce.user
             creator := e32 ce.creator
             timestamp := i64AsU32 ce.timestamp
             virtual_token_reserves := ce.virtual_token_reserves
             virtual_sol_reserves := ce.virtual_sol_reserves
             real_token_reserves := ce.real_token_reserves
             token_total_supply := ce.token_total_supply }] }
    | _, _ => s
  | "PumpFunMigrateEvent" =>
    match instr.parsed, prev.parsed with
    | some (Parsed.pumpfunMigrationEvent me), some _ =>
      { s with migrate_rows := s.migrate_rows ++
          [{ signature := e64 tx.signature
             slot := tx.slot
             transaction_index := u64AsU32 tx.index
             instruction_index := i
             user := e32 me.user
             mint := e32 me.mint
             mint_amount := me.mint_amount
             sol_amount := me.sol_amount
             pool_migration_fee := me.pool_migration_fee
             bonding_curve := e32 me.bonding_curve
             timestamp := i64AsU32 me.timestamp
             pool := e32 me.pool }] }
    | _, _ => s
  | "PumpFunAmmBuyEvent" =>
    match instr.parsed, prev.parsed with
    | some (Parsed.pumpfunAmmBuyEvent be), some (Parsed.pumpfunAmmBuy bi) =>
      match bi.accounts with
      | some accounts =>
        { s with amm_buy_rows := s.amm_buy_rows ++
            [{ signature := e64 tx.signature
               slot := tx.slot
               transaction_index := u64AsU32 tx.index
               instruction_index := i
               base_mint := e32 accounts.base_mint
               quote_mint := e32 accounts.quote_mint
               timestamp := i64AsU32 be.timestamp
               base_amount_out := be.base_amount_out
               max_quote_amount_in := be.max_quote_amount_in
               user_base_token_reserves := be.user_base_token_reserves
               user_quote_token_reserves := be.user_quote_token_reserves
               pool_base_token_reserves := be.pool_base_token_reserves
               pool_quote_token_reserves := be.pool_quote_token_reserves
               quote_amount_in := be.quote_amount_in
               lp_fee_basis_points := be.lp_fee_basis_points
               lp_fee := be.lp_fee
               protocol_fee_basis_points := be.protocol_fee_basis_points
               protocol_fee := be.protocol_fee
               quote_amount_in_with_lp_fee := be.quote_amount_in_with_lp_fee
               user_quote_amount_in := be.user_quote_amount_in
               pool := e32 accounts.pool
               user := e32 accounts.user
               user_base_token_account := e32 accounts.user_base_token_account
               user_quote_token_account := e32 accounts.user_quote_token_account
               protocol_fee_recipient := e32 accounts.protocol_fee_recipient
               protocol_fee_recipient_token_account :=
                 e32 accounts.protocol_fee_recipient_token_account
               coin_creator := e32 be.coin_creator
               coin_creator_fee_basis_points := be.coin_creator_fee_basis_points
               coin_creator_fee := be.coin_creator_fee
               track_volume := boolToU8 be.track_volume
               total_unclaimed_tokens := be.total_unclaimed_tokens
               total_claimed_tokens := be.total_claimed_tokens
               current_sol_volume := be.current_sol_volume
               last_update_timestamp := be.last_update_timestamp
               is_main_pool := boolToU8 bi.is_main_pool }] }
      | none => s
    | _, _ => s
  | "PumpFunAmmSellEvent" =>
    match instr.parsed, prev.parsed with
    | some (Parsed.pumpfunAmmSellEvent se), some (Parsed.pumpfunAmmSell si) =>
      match si.accounts with
      | some accounts =>
        { s with amm_sell_rows := s.amm_sell_rows ++
            [{ signature := e64 tx.signature
               slot := tx.slot
               transaction_index := u64AsU32 tx.index
               instruction_index := i
               base_mint := e32 accounts.base_mint
               quote_mint := e32 accounts.quote_mint
               timestamp := i64AsU32 se.timestamp
               base_amount_in := se.base_amount_in
               min_quote_amount_out := se.min_quote_amount_out
               user_base_token_reserves := se.user_base_token_reserves
               user_quote_token_reserves := se.user_quote_token_reserves
               pool_base_token_reserves := se.pool_base_token_reserves
               pool_quote_token_reserves := se.pool_quote_token_reserves
               quote_amount_out := se.quote_amount_out
               lp_fee_basis_points := se.lp_fee_basis_points
               lp_fee := se.lp_fee
               protocol_fee_basis_points := se.protocol_fee_basis_points
               protocol_fee := se.protocol_fee
               quote_amount_out_without_lp_fee := se.quote_amount_out_without_lp_fee
               user_quote_amount_out := se.user_quote_amount_out
               pool := e32 accounts.pool
               user := e32 accounts.user
               user_base_token_account := e32 accounts.user_base_token_account
               user_quote_token_account := e32 accounts.user_quote_token_account
               protocol_fee_recipient := e32 accounts.protocol_fee_recipient
               protocol_fee_recipient_token_account :=
                 e32 accounts.protocol_fee_recipient_token_account
               coin_creator := e32 se.coin_creator
               coin_creator_fee_basis_points := se.coin_creator_fee_basis_points
               coin_creator_fee := se.coin_creator_fee
               is_main_pool := boolToU8 si.is_main_pool }] }
      | none => s
    | _, _ => s
  | "PumpFunAmmDepositEvent" =>
    match instr.parsed, prev.parsed with
    | some (Parsed.pumpfunAmmDepositEvent de), some (Parsed.pumpfunAmmDeposit di) =>
      match di.accounts with
      | some accounts =>
        { s with amm_deposit_rows := s.amm_deposit_rows ++
            [{ signature := e64 tx.signature
               slot := tx.slot
               transaction_index := u64AsU32 tx.index
               instruction_index := i
               base_mint := e32 accounts.base_mint
               quote_mint := e32 accounts.quote_mint
               timestamp := i64AsU32 de.timestamp
               lp_token_amount_out := de.lp_token_amount_out
               max_base_amount_in := de.max_base_amount_in
               max_quote_amount_in := de.max_quote_amount_in
               user_base_token_reserves := de.user_base_token_reserves
               user_quote_token_reserves := de.user_quote_token_reserves
               pool_base_token_reserves := de.pool_base_token_reserves
               pool_quote_token_reserves := de.pool_quote_token_reserves
               base_amount_in := de.base_amount_in
               quote_amount_in := de.quote_amount_in
               lp_mint_supply := de.lp_mint_supply
               pool := e32 accounts.pool
               user := e32 accounts.user
               user_base_token_account := e32 accounts.user_base_token_account
               user_quote_token_account := e32 accounts.user_quote_token_account
               user_pool_token_account := e32 accounts.user_pool_token_account
               is_main_pool := boolToU8 di.is_main_pool }] }
      | none => s
    | _, _ => s
  | "PumpFunAmmWithdrawEvent" =>
    match instr.parsed, prev.parsed with
    | some (Parsed.pumpfunAmmWithdrawEvent we), some (Parsed.pumpfunAmmWithdraw wi) =>
      match wi.accounts with
      | some accounts =>
        { s with amm_withdraw_rows := s.amm_withdraw_rows ++
            [{ signature := e64 tx.signature
               slot := tx.slot
               transaction_index := u64AsU32 tx.index
               instruction_index := i
               base_mint := e32 accounts.base_mint
               quote_mint := e32 accounts.quote_mint
               timestamp := i64AsU32 we.timestamp
               lp_token_amount_in := we.lp_token_amount_in
               min_base_amount_out := we.min_base_amount_out
               min_quote_amount_out := we.min_quote_amount_out
               user_base_token_reserves := we.user_base_token_reserves
               user_quote_token_reserves := we.user_quote_token_reserves
               pool_base_token_reserves := we.pool_base_token_reserves
               pool_quote_token_reserves := we.pool_quote_token_reserves
               base_amount_out := we.base_amount_out
               quote_amount_out := we.quote_amount_out
               lp_mint_supply := we.lp_mint_supply
               pool := e32 accounts.pool
               user := e32 accounts.user
               user_base_token_account := e32 accounts.user_base_token_account
               user_quote_token_account := e32 accounts.user_quote_token_account
               user_pool_token_account := e32 accounts.user_pool_token_account
               is_main_pool := boolToU8 wi.is_main_pool }] }
      | none => s
    | _, _ => s
  | "PumpFunAmmCreatePoolEvent" =>
    match instr.parsed, prev.parsed with
    | some (Parsed.pumpfunAmmCreatePoolEvent pe), some (Parsed.pumpfunAmmCreatePool pi) =>
      match pi.accounts with
      | some accounts =>
        { s with amm_create_pool_rows := s.amm_create_pool_rows ++
            [{ signature := e64 tx.signature
               slot := tx.slot
               transaction_index := u64AsU32 tx.index
               instruction_index := i
               timestamp := i64AsU32 pe.timestamp
               index := pe.index
               creator := e32 accounts.creator
               base_mint := e32 accounts.base_mint
               quote_mint := e32 accounts.quote_mint
               base_mint_decimals := pe.base_mint_decimals
               quote_mint_decimals := pe.quote_mint_decimals
               base_amount_in := pe.base_amount_in
               quote_amount_in := pe.quote_amount_in
               pool_base_amount := pe.pool_base_amount
               pool_quote_amount := pe.pool_quote_amount
               minimum_liquidity := pe.minimum_liquidity
               initial_liquidity := pe.initial_liquidity
               lp_token_amount_out := pe.lp_token_amount_out
               pool_bump := pe.pool_bump
               pool := e32 accounts.pool
               lp_mint := e32 accounts.lp_mint
               user_base_token_account := e32 accounts.user_base_token_account
               user_quote_token_account := e32 accounts.user_quote_token_account
               coin_creator := e32 pe.coin_creator
               is_main_pool := boolToU8 pi.is_main_pool }] }
      | none => s
    | _, _ => s
  | _ => s

/-- One iteration of the `for instr in &tx.instructions` loop at
position `i`: events pop the pending stack (popping an empty stack
leaves everything unchanged), all other instructions are pushed. -/
def processInstr (e32 e64 : Bytes → String) (tx : Transaction) (i : Nat)
    (instr : Instruction) (s : ConvState) : ConvState :=
  if is_event instr then
    match s.stack with
    | [] => s
    | prev :: rest =>
      pairEvent e32 e64 tx i instr prev { s with stack := rest }
  else
    { s with stack := instr :: s.stack }

/-- The instruction loop of `convert`, carrying the running index. -/
def convertLoop (e32 e64 : Bytes → String) (tx : Transaction) :
    Nat → List Instruction → ConvState → ConvState
  | _, [], s => s
  | i, instr :: rest, s =>
    convertLoop e32 e64 tx (i + 1) rest (processInstr e32 e64 tx i instr s)

/-- Source `TransactionConverter::convert`: run the loop over the
transaction's instructions starting from index 0 with empty outputs. -/
def convert (e32 e64 : Bytes → String) (tx : Transaction) : ConvState :=
  convertLoop e32 e64 tx 0 tx.instructions initState

/-- The pending-stack evolution of `convert` in isolation: an event
pops (tail), anything else pushes. -/
def stackUpd (st : List Instruction) (instr : Instruction) : List Instruction :=
  if is_event instr then st.tail else instr :: st

/-- Pending stack immediately before the instruction at position `i` is
processed. -/
def stackBefore (tx : Transaction) (i : Nat) : List Instruction :=
  (tx.instructions.take i).foldl stackUpd []

/-- Decidable check: some output row carries `instruction_index = i`. -/
def hasRowAt (s : ConvState) (i : Nat) : Bool :=
  s.trade_rows.any (fun r => r.instruction_index == i)
    || s.create_rows.any (fun r => r.instruction_index == i)
    || s.migrate_rows.any (fun r => r.instruction_index == i)
    || s.amm_buy_rows.any (fun r => r.instruction_index == i)
    || s.amm_sell_rows.any (fun r => r.instruction_index == i)
    || s.amm_create_pool_rows.any (fun r => r.instruction_index == i)
    || s.amm_deposit_rows.any (fun r => r.instruction_index == i)
    || s.amm_withdraw_rows.any (fun r => r.instruction_index == i)

end TransactionConverter

namespace TransactionConverter

/-- Does the action instruction carry a `Parsed::PumpfunAmmBuy` payload? -/
def isAmmBuyAction (a : Instruction) : Bool :=
  match a.parsed with
  | some (Parsed.pumpfunAmmBuy _) => true
  | _ => false

/-- Does the action instruction carry a `Parsed::PumpfunAmmSell` payload? -/
def isAmmSellAction (a : Instruction) : Bool :=
  match a.parsed with
  | some (Parsed.pumpfunAmmSell _) => true
  | _ => false

/-- Does the action instruction carry a `Parsed::PumpfunAmmDeposit` payload? -/
def isAmmDepositAction (a : Instruction) : Bool :=
  match a.parsed with
  | some (Parsed.pumpfunAmmDeposit _) => true
  | _ => false

/-- Does the action instruction carry a `Parsed::PumpfunAmmWithdraw` payload? -/
def isAmmWithdrawAction (a : Instruction) : Bool :=
  match a.parsed with
  | some (Parsed.pumpfunAmmWithdraw _) => true
  | _ => false

/-- Does the action instruction carry a `Parsed::PumpfunAmmCreatePool` payload? -/
def isAmmCreatePoolAction (a : Instruction) : Bool :=
  match a.parsed with
  | some (Parsed.pumpfunAmmCreatePool _) => true
  | _ => false

/-- The event carries one of the five AMM event tags while the popped
action's parsed payload is not the matching AMM action variant. -/
def amm_event_mismatch (ev act : Instruction) : Bool :=
  (ev.ty == "PumpFunAmmBuyEvent" && !isAmmBuyAction act)
    || (ev.ty == "PumpFunAmmSellEvent" && !isAmmSellAction act)
    || (ev.ty == "PumpFunAmmDepositEvent" && !isAmmDepositAction act)
    || (ev.ty == "PumpFunAmmWithdrawEvent" && !isAmmWithdrawAction act)
    || (ev.ty == "PumpFunAmmCreatePoolEvent" && !isAmmCreatePoolAction act)

/-- The event carries one of the five AMM event tags, the popped action
carries the matching AMM action variant, but its `accounts` field is
`None`. -/
def amm_event_accounts_none (ev act : Instruction) : Bool :=
  (ev.ty == "PumpFunAmmBuyEvent" &&
      (match act.parsed with
       | some (Parsed.pumpfunAmmBuy bi) => bi.accounts.isNone
       | _ => false))
    || (ev.ty == "PumpFunAmmSellEvent" &&
        (match act.parsed with
         | some (Parsed.pumpfunAmmSell si) => si.accounts.isNone
         | _ => false))
    || (ev.ty == "PumpFunAmmDepositEvent" &&
        (match act.parsed with
         | some (Parsed.pumpfunAmmDeposit di) => di.accounts.isNone
         | _ => false))
    || (ev.ty == "PumpFunAmmWithdrawEvent" &&
        (match act.parsed with
         | some (Parsed.pumpfunAmmWithdraw wi) => wi.accounts.isNone
         | _ => false))
    || (ev.ty == "PumpFunAmmCreatePoolEvent" &&
        (match act.parsed with
         | some (Parsed.pumpfunAmmCreatePool ci) => ci.accounts.isNone
         | _ => false))

end TransactionConverter

/-! ## Character-list implementations of the Rust string operations
used by the scanner and the tracker (structural recursion, so that
concrete runs reduce inside the kernel). -/

namespace RustStr

/-- Rust `str::ends_with`. -/
def endsWith (s pat : String) : Bool :=
  pat.data.isSuffixOf s.data

/-- Rust `str::starts_with`. -/
def startsWith (s pat : String) : Bool :=
  pat.data.isPrefixOf s.data

/-- Rust `str::is_empty`. -/
def isEmpty (s : String) : Bool :=
  s.data.isEmpty

/-- Drop the last `n` characters. -/
def dropRight (s : String) (n : Nat) : String :=
  String.mk (s.data.take (s.data.length - n))

/-- Drop the first `n` characters. -/
def dropLeft (s : String) (n : Nat) : String :=
  String.mk (s.data.drop n)

/-- Rust `str::trim` (whitespace from both ends). -/
def trim (s : String) : String :=
  String.mk (((s.data.dropWhile Char.isWhitespace).reverse.dropWhile
    Char.isWhitespace).reverse)

/-- Accumulator loop of `str::split(c)`. -/
def splitOnCharAux (c : Char) : List Char → List Char → List String
  | [], acc => [String.mk acc.reverse]
  | x :: rest, acc =>
    if x = c then String.mk acc.reverse :: splitOnCharAux c rest []
    else splitOnCharAux c rest (x :: acc)

/-- Rust `str::split(c)` collected into a list. -/
def splitOnChar (c : Char) (s : String) : List String :=
  splitOnCharAux c s.data []

/-- Digit loop of `str::parse::<u64>`. -/
def digitsToNatAux : List Char → Nat → Option Nat
  | [], acc => some acc
  | c :: rest, acc =>
    if c.isDigit then digitsToNatAux rest (acc * 10 + (c.toNat - 48))
    else none

/-- All-digit parse of a non-empty character list. -/
def parseNatCore (s : String) : Option Nat :=
  match s.data with
  | [] => none
  | cs => digitsToNatAux cs 0

end RustStr

/-! ## `FileScanner` (`squirrel/src/block_parser/file_scanner.rs`) -/

/-- One directory entry as observed by `fs::read_dir` plus the
`path.is_file()` test. -/
structure DirEntry where
  name : String
  isFile : Bool
deriving DecidableEq, Repr

/-- The scanner's `FilePair` struct; the source field `prefix` is
rendered `pfx` here, and the two `PathBuf`s are kept as the file names
(the constant `data_dir` component carries no information). -/
structure FilePair where
  pfx : String
  meta_path : String
  bin_path : String
deriving DecidableEq, Repr

namespace FileScanner

/-- Rust `str::trim_end_matches`: every trailing repetition of the
pattern is removed; fuel-driven, `s.data.length` steps always suffice
for a non-empty pattern. -/
def trimEndAux : Nat → String → String → String
  | 0, s, _ => s
  | fuel + 1, s, pat =>
    if pat.data.length > 0 && RustStr.endsWith s pat then
      trimEndAux fuel (RustStr.dropRight s pat.data.length) pat
    else s

/-- Rust `s.trim_end_matches(pat)`. -/
def trim_end_matches (s pat : String) : String :=
  trimEndAux s.data.length s pat

/-- Rust `str::parse::<u64>()`: optional leading `+`, all digits, value
below `2^64`. -/
def parseU64 (s : String) : Option Nat :=
  let t := if RustStr.startsWith s "+" then RustStr.dropLeft s 1 else s
  match RustStr.parseNatCore t with
  | some n => if n < 2 ^ 64 then some n else none
  | none => none

/-- Source `FileScanner::extract_prefix_from_filename`. -/
def extract_prefix_from_filename (filename : String) : Option String :=
  if RustStr.endsWith filename ".meta" then
    let p := trim_end_matches filename ".meta"
    if RustStr.isEmpty p then none else some p
  else if RustStr.endsWith filename ".bin" then
    let p := trim_end_matches filename ".bin"
    if RustStr.isEmpty p then none else some p
  else none

/-- Source `FileScanner::extract_start_slot`. -/
def extract_start_slot (pfx : String) : Option Nat :=
  parseU64 ((RustStr.splitOnChar '_' pfx).headD "")

/-- `HashMap::insert` on an association list: replace in place or
append; keys stay unique. -/
def mapInsert (m : List (String × String)) (k v : String) :
    List (String × String) :=
  if m.any (fun e => e.1 == k) then
    m.map (fun e => if e.1 == k then (k, v) else e)
  else m ++ [(k, v)]

/-- `HashMap::get` on the association list. -/
def mapGet (m : List (String × String)) (k : String) : Option String :=
  (m.find? (fun e => e.1 == k)).map (fun e => e.2)

/-- One directory entry of the scan loop: skip non-files and
unrecognized names, insert the prefix into the `meta_files` or
`bin_files` map. -/
def scanStep (ms : List (String × String) × List (String × String))
    (entry : DirEntry) :
    List (String × String) × List (String × String) :=
  if !entry.isFile then ms
  else
    match extract_prefix_from_filename entry.name with
    | none => ms
    | some p =>
      if RustStr.endsWith entry.name ".meta" then
        (mapInsert ms.1 p entry.name, ms.2)
      else if RustStr.endsWith entry.name ".bin" then
        (ms.1, mapInsert ms.2 p entry.name)
      else ms

/-- The directory-reading loop of `scan_available_files`: build the
`meta_files` and `bin_files` maps from prefix to path. -/
def buildMaps (entries : List DirEntry) :
    List (String × String) × List (String × String) :=
  entries.foldl scanStep ([], [])

/-- The directory entry contributes prefix `p` to the `meta_files` map. -/
def isMetaEntryFor (e : DirEntry) (p : String) : Bool :=
  e.isFile && RustStr.endsWith e.name ".meta"
    && (extract_prefix_from_filename e.name == some p)

/-- The directory entry contributes prefix `p` to the `bin_files` map. -/
def isBinEntryFor (e : DirEntry) (p : String) : Bool :=
  e.isFile && !RustStr.endsWith e.name ".meta"
    && RustStr.endsWith e.name ".bin"
    && (extract_prefix_from_filename e.name == some p)

/-- Sort key used by the scanner's comparator:
`extract_start_slot(prefix).unwrap_or(0)`. -/
def startKey (p : FilePair) : Nat :=
  (extract_start_slot p.pfx).getD 0

/-- The total preorder realized by the scanner's comparator
`|a, b| b_start.cmp(&a_start)`: descending by start key. -/
def scanLe (a b : FilePair) : Prop :=
  startKey b ≤ startKey a

instance : DecidableRel scanLe := fun a b => Nat.decLe _ _

instance : IsTotal FilePair scanLe :=
  ⟨fun a b => Nat.le_total (startKey b) (startKey a)⟩

instance : IsTrans FilePair scanLe :=
  ⟨fun _ _ _ hab hbc => Nat.le_trans hbc hab⟩

/-- The pairing loop of `scan_available_files`: for each `meta_files`
entry, emit a `FilePair` when the `bin_files` map has the prefix. -/
def pairStep (binMap : List (String × String)) (acc : List FilePair)
    (kv : String × String) : List FilePair :=
  match mapGet binMap kv.1 with
  | some bin_path => acc ++ [⟨kv.1, kv.2, bin_path⟩]
  | none => acc

/-- Source `FileScanner::scan_available_files` as a function of the
directory listing: pair up the two maps, then `sort_by` descending
start slot (`b_start.cmp(&a_start)`, stable). -/
def scan_available_files (entries : List DirEntry) : List FilePair :=
  let maps := buildMaps entries
  let file_pairs := maps.1.foldl (pairStep maps.2) ([] : List FilePair)
  file_pairs.insertionSort scanLe

/-- The set of prefixes the C3 claim sentence describes: those `p` for
which both the literal file names `p ++ ".meta"` and `p ++ ".bin"`
exist as regular files.  Written from the spec's words for comparison
with `scan_available_files`. -/
def specBothFilesPrefixes (entries : List DirEntry) : List String :=
  (entries.foldl
    (fun acc e =>
      match extract_prefix_from_filename e.name with
      | some p => if acc.contains p then acc else acc ++ [p]
      | none => acc)
    []).filter
    (fun p =>
      entries.any (fun e => e.isFile && e.name == p ++ ".meta")
        && entries.any (fun e => e.isFile && e.name == p ++ ".bin"))

end FileScanner

/-! ## `ProcessedTracker` (`squirrel/src/block_parser/processed_tracker.rs`) -/

namespace ProcessedTracker

/-- `HashSet::insert` on a list kept duplicate-free. -/
def setInsert (set : List String) (p : String) : List String :=
  if set.contains p then set else set ++ [p]

/-- One line of the `load_processed_list` loop: skip blank and `#`
lines, insert `parts[1]` of lines with at least three comma-fields
whose third field is `completed`. -/
def loadStep (set : List String) (line : String) : List String :=
  let l := RustStr.trim line
  if RustStr.isEmpty l || RustStr.startsWith l "#" then set
  else
    let parts := RustStr.splitOnChar ',' l
    if parts.length ≥ 3 && parts.getD 2 "" == "completed" then
      setInsert set (parts.getD 1 "")
    else set

/-- Source `ProcessedTracker::load_processed_list` as a function of the
log's lines. -/
def load_processed_list (lines : List String) : List String :=
  lines.foldl loadStep []

/-- Source `ProcessedTracker::is_processed`. -/
def is_processed (set : List String) (p : String) : Bool :=
  set.contains p

/-- Predicate: this trimmed line is a completion record for prefix `p`. -/
def isCompletionLineFor (line p : String) : Bool :=
  let l := RustStr.trim line
  !RustStr.isEmpty l && !RustStr.startsWith l "#"
    && (let parts := RustStr.splitOnChar ',' l
        parts.length ≥ 3 && parts.getD 2 "" == "completed" && parts.getD 1 "" == p)

/-- Source `ProcessedTracker::cleanup_log` as a function of the log's
lines, returning the rewritten lines (the temp-file/rename mechanics
carry no content).  First pass trims and keeps every line; second
(reverse) pass collects the set of prefixes of lines with at least two
comma-fields; third (forward) pass writes blank/comment lines verbatim
and otherwise keeps a line only when its prefix is still in the set,
removing the prefix after the first such write. -/
def cleanup_log (lines : List String) : List String :=
  let entries := lines.map (fun l => RustStr.trim l)
  let seen := entries.reverse.foldl
    (fun seen e =>
      if RustStr.isEmpty e || RustStr.startsWith e "#" then seen
      else
        let parts := RustStr.splitOnChar ',' e
        if parts.length ≥ 2 then setInsert seen (parts.getD 1 "") else seen)
    []
  (entries.foldl
    (fun (st : List String × List String) e =>
      if RustStr.isEmpty e || RustStr.startsWith e "#" then (st.1, st.2 ++ [e])
      else
        let parts := RustStr.splitOnChar ',' e
        if parts.length ≥ 2 && st.1.contains (parts.getD 1 "") then
          (st.1.erase (parts.getD 1 ""), st.2 ++ [e])
        else st)
    (seen, [])).2

end ProcessedTracker

/-! ## `BlockParserService::process_pending_files`
(`squirrel/src/block_parser/block_parser_service.rs`) -/

namespace BlockParserService

/-- The filter step of `process_pending_files`: drop every scanned pair
whose prefix is already in the tracker's set. -/
def pendingPairs (pairs : List FilePair) (set : List String) : List FilePair :=
  pairs.filter (fun pr => !(ProcessedTracker.is_processed set pr.pfx))

/-- The processing loop over the pending pairs.  `outcome p = true`
models `FileProcessor::process_file_pair` (including the flush-pool
drain) returning `Ok` for the unit with prefix `p`; a `false` outcome
panics, aborting the loop.  Returns the prefixes marked as processed
(appended to the log, in order) and whether the loop ran to completion. -/
def runPending (outcome : String → Bool) :
    List FilePair → List String × Bool
  | [] => ([], true)
  | pr :: rest =>
    if outcome pr.pfx then
      let r := runPending outcome rest
      (pr.pfx :: r.1, r.2)
    else ([], false)

/-- Source `BlockParserService::process_pending_files` as a function of
the scanned pairs, the loaded processed set and the per-unit outcome. -/
def process_pending_files (pairs : List FilePair) (set : List String)
    (outcome : String → Bool) : List String × Bool :=
  runPending outcome (pendingPairs pairs set)

end BlockParserService

/-! ## `SyncChecker::compare_hourly` (`syncer/src/sync_checker.rs`) -/

namespace SyncChecker

/-- `HashMap::insert` for `u32 → u64` count maps (later duplicates
overwrite). -/
def cntInsert (m : List (Nat × Nat)) (k v : Nat) : List (Nat × Nat) :=
  if m.any (fun e => e.1 == k) then
    m.map (fun e => if e.1 == k then (k, v) else e)
  else m ++ [(k, v)]

/-- `collect::<HashMap<_, _>>()` over the remote rows. -/
def buildCounts (counts : List (Nat × Nat)) : List (Nat × Nat) :=
  counts.foldl (fun m hc => cntInsert m hc.1 hc.2) []

/-- `HashMap::remove`: the removed value (if any) and the map without
that key. -/
def cntRemove (m : List (Nat × Nat)) (k : Nat) :
    Option Nat × List (Nat × Nat) :=
  match m.find? (fun e => e.1 == k) with
  | some kv => (some kv.2, m.filter (fun e => !(e.1 == k)))
  | none => (none, m)

/-- One local row of the hour-comparison loop: `remove` the bucket
from the remote map (`unwrap_or(0)` when absent) and record the bucket
when the counts differ. -/
def localStep (st : List (Nat × Nat) × List Nat) (lc : Nat × Nat) :
    List (Nat × Nat) × List Nat :=
  let r := cntRemove st.1 lc.1
  let remote_count := (r.1).getD 0
  if lc.2 ≠ remote_count then (r.2, st.2 ++ [lc.1]) else (r.2, st.2)

/-- One leftover remote bucket: push it unless already recorded. -/
def leftoverStep (ds : List Nat) (kv : Nat × Nat) : List Nat :=
  if ds.contains kv.1 then ds else ds ++ [kv.1]

/-- Source `SyncChecker::compare_hourly` as a function of the two
per-hour `(bucket, uniqExact)` result lists: walk the local rows
removing each bucket from the remote map and recording differing
buckets; then append every leftover remote bucket not already
recorded; finally `sort()` ascending (stable, as a structural
insertion sort). -/
def compare_hourly (local_counts remote_counts : List (Nat × Nat)) : List Nat :=
  let first := local_counts.foldl localStep (buildCounts remote_counts, [])
  let diffs := first.1.foldl leftoverStep first.2
  diffs.insertionSort (· ≤ ·)

/-- Count associated with a bucket in a raw result list, `0` when the
bucket is absent (the claim's "compared against count 0"). -/
def lookupCount (counts : List (Nat × Nat)) (h : Nat) : Nat :=
  ((counts.find? (fun e => e.1 == h)).map (fun e => e.2)).getD 0

end SyncChecker

/-! ## Columnar batches (`vec_to_arrow_batch` / `arrow_batch_to_vec`,
`utils/src/clickhouse_events.rs`).  The generic Rust pair delegates to
`serde_arrow`, which for these struct-of-primitives schemas stores one
column per field; the pair is modelled here monomorphized at each of
the eight row types. -/

/-- Columnar batch for `PumpfunTradeEventV2`: one column per schema field plus
the row count, mirroring the `RecordBatch` produced by
`serde_arrow::to_record_batch` for this struct-of-primitives schema. -/
structure PumpfunTradeEventV2Batch where
  num_rows : Nat
  signature : List String
  slot : List Nat
  transaction_index : List Nat
  instruction_index : List Nat
  mint : List String
  sol_amount : List Nat
  token_amount : List Nat
  is_buy : List Nat
  user : List String
  timestamp : List Nat
  virtual_sol_reserves : List Nat
  virtual_token_reserves : List Nat
  real_sol_reserves : List Nat
  real_token_reserves : List Nat
  fee_recipient : List String
  fee_basis_points : List Nat
  fee : List Nat
  creator : List String
  creator_fee_basis_points : List Nat
  creator_fee : List Nat
  track_volume : List Nat
  total_unclaimed_tokens : List Nat
  total_claimed_tokens : List Nat
  current_sol_volume : List Nat
  last_update_timestamp : List Int
deriving DecidableEq, Repr

namespace PumpfunTradeEventV2

/-- `vec_to_arrow_batch` monomorphized at `PumpfunTradeEventV2`: each
column is the projection of the rows onto that field. -/
def vec_to_arrow_batch (rows : List PumpfunTradeEventV2) : PumpfunTradeEventV2Batch where
  num_rows := rows.length
  signature := rows.map (fun r => r.signature)
  slot := rows.map (fun r => r.slot)
  transaction_index := rows.map (fun r => r.transaction_index)
  instruction_index := rows.map (fun r => r.instruction_index)
  mint := rows.map (fun r => r.mint)
  sol_amount := rows.map (fun r => r.sol_amount)
  token_amount := rows.map (fun r => r.token_amount)
  is_buy := rows.map (fun r => r.is_buy)
  user := rows.map (fun r => r.user)
  timestamp := rows.map (fun r => r.timestamp)
  virtual_sol_reserves := rows.map (fun r => r.virtual_sol_reserves)
  virtual_token_reserves := rows.map (fun r => r.virtual_token_reserves)
  real_sol_reserves := rows.map (fun r => r.real_sol_reserves)
  real_token_reserves := rows.map (fun r => r.real_token_reserves)
  fee_recipient := rows.map (fun r => r.fee_recipient)
  fee_basis_points := rows.map (fun r => r.fee_basis_points)
  fee := rows.map (fun r => r.fee)
  creator := rows.map (fun r => r.creator)
  creator_fee_basis_points := rows.map (fun r => r.creator_fee_basis_points)
  creator_fee := rows.map (fun r => r.creator_fee)
  track_volume := rows.map (fun r => r.track_volume)
  total_unclaimed_tokens := rows.map (fun r => r.total_unclaimed_tokens)
  total_claimed_tokens := rows.map (fun r => r.total_claimed_tokens)
  current_sol_volume := rows.map (fun r => r.current_sol_volume)
  last_update_timestamp := rows.map (fun r => r.last_update_timestamp)

/-- `arrow_batch_to_vec` monomorphized at `PumpfunTradeEventV2`:
rebuild row `i` from the columns at index `i`. -/
def arrow_batch_to_vec (b : PumpfunTradeEventV2Batch) : List PumpfunTradeEventV2 :=
  (List.range b.num_rows).map (fun i =>
    { signature := b.signature.getD i ""
      slot := b.slot.getD i 0
      transaction_index := b.transaction_index.getD i 0
      instruction_index := b.instruction_index.getD i 0
      mint := b.mint.getD i ""
      sol_amount := b.sol_amount.getD i 0
      token_amount := b.token_amount.getD i 0
      is_buy := b.is_buy.getD i 0
      user := b.user.getD i ""
      timestamp := b.timestamp.getD i 0
      virtual_sol_reserves := b.virtual_sol_reserves.getD i 0
      virtual_token_reserves := b.virtual_token_reserves.getD i 0
      real_sol_reserves := b.real_sol_reserves.getD i 0
      real_token_reserves := b.real_token_reserves.getD i 0
      fee_recipient := b.fee_recipient.getD i ""
      fee_basis_points := b.fee_basis_points.getD i 0
      fee := b.fee.getD i 0
      creator := b.creator.getD i ""
      creator_fee_basis_points := b.creator_fee_basis_points.getD i 0
      creator_fee := b.creator_fee.getD i 0
      track_volume := b.track_volume.getD i 0
      total_unclaimed_tokens := b.total_unclaimed_tokens.getD i 0
      total_claimed_tokens := b.total_claimed_tokens.getD i 0
      current_sol_volume := b.current_sol_volume.getD i 0
      last_update_timestamp := b.last_update_timestamp.getD i 0 })

end PumpfunTradeEventV2

/-- Columnar batch for `PumpfunCreateEventV2`: one column per schema field plus
the row count, mirroring the `RecordBatch` produced by
`serde_arrow::to_record_batch` for this struct-of-primitives schema. -/
structure PumpfunCreateEventV2Batch where
  num_rows : Nat
  signature : List String
  slot : List Nat
  transaction_index : List Nat
  instruction_index : List Nat
  name : List String
  symbol : List String
  uri : List String
  mint : List String
  bonding_curve : List String
  user : List String
  creator : List String
  timestamp : List Nat
  virtual_token_reserves : List Nat
  virtual_sol_reserves : List Nat
  real_token_reserves : List Nat
  token_total_supply : List Nat
deriving DecidableEq, Repr

namespace PumpfunCreateEventV2

/-- `vec_to_arrow_batch` monomorphized at `PumpfunCreateEventV2`: each
column is the projection of the rows onto that field. -/
def vec_to_arrow_batch (rows : List PumpfunCreateEventV2) : PumpfunCreateEventV2Batch where
  num_rows := rows.length
  signature := rows.map (fun r => r.signature)
  slot := rows.map (fun r => r.slot)
  transaction_index := rows.map (fun r => r.transaction_index)
  instruction_index := rows.map (fun r => r.instruction_index)
  name := rows.map (fun r => r.name)
  symbol := rows.map (fun r => r.symbol)
  uri := rows.map (fun r => r.uri)
  mint := rows.map (fun r => r.mint)
  bonding_curve := rows.map (fun r => r.bonding_curve)
  user := rows.map (fun r => r.user)
  creator := rows.map (fun r => r.creator)
  timestamp := rows.map (fun r => r.timestamp)
  virtual_token_reserves := rows.map (fun r => r.virtual_token_reserves)
  virtual_sol_reserves := rows.map (fun r => r.virtual_sol_reserves)
  real_token_reserves := rows.map (fun r => r.real_token_reserves)
  token_total_supply := rows.map (fun r => r.token_total_supply)

/-- `arrow_batch_to_vec` monomorphized at `PumpfunCreateEventV2`:
rebuild row `i` from the columns at index `i`. -/
def arrow_batch_to_vec (b : PumpfunCreateEventV2Batch) : List PumpfunCreateEventV2 :=
  (List.range b.num_rows).map (fun i =>
    { signature := b.signature.getD i ""
      slot := b.slot.getD i 0
      transaction_index := b.transaction_index.getD i 0
      instruction_index := b.instruction_index.getD i 0
      name := b.name.getD i ""
      symbol := b.symbol.getD i ""
      uri := b.uri.getD i ""
      mint := b.mint.getD i ""
      bonding_curve := b.bonding_curve.getD i ""
      user := b.user.getD i ""
      creator := b.creator.getD i ""
      timestamp := b.timestamp.getD i 0
      virtual_token_reserves := b.virtual_token_reserves.getD i 0
      virtual_sol_reserves := b.virtual_sol_reserves.getD i 0
      real_token_reserves := b.real_token_reserves.getD i 0
      token_total_supply := b.token_total_supply.getD i 0 })

end PumpfunCreateEventV2

/-- Columnar batch for `PumpfunMigrateEventV2`: one column per schema field plus
the row count, mirroring the `RecordBatch` produced by
`serde_arrow::to_record_batch` for this struct-of-primitives schema. -/
structure PumpfunMigrateEventV2Batch where
  num_rows : Nat
  signature : List String
  slot : List Nat
  transaction_index : List Nat
  instruction_index : List Nat
  user : List String
  mint : List String
  mint_amount : List Nat
  sol_amount : List Nat
  pool_migration_fee : List Nat
  bonding_curve : List String
  timestamp : List Nat
  pool : List String
deriving DecidableEq, Repr

namespace PumpfunMigrateEventV2

/-- `vec_to_arrow_batch` monomorphized at `PumpfunMigrateEventV2`: each
column is the projection of the rows onto that field. -/
def vec_to_arrow_batch (rows : List PumpfunMigrateEventV2) : PumpfunMigrateEventV2Batch where
  num_rows := rows.length
  signature := rows.map (fun r => r.signature)
  slot := rows.map (fun r => r.slot)
  transaction_index := rows.map (fun r => r.transaction_index)
  instruction_index := rows.map (fun r => r.instruction_index)
  user := rows.map (fun r => r.user)
  mint := rows.map (fun r => r.mint)
  mint_amount := rows.map (fun r => r.mint_amount)
  sol_amount := rows.map (fun r => r.sol_amount)
  pool_migration_fee := rows.map (fun r => r.pool_migration_fee)
  bonding_curve := rows.map (fun r => r.bonding_curve)
  timestamp := rows.map (fun r => r.timestamp)
  pool := rows.map (fun r => r.pool)

/-- `arrow_batch_to_vec` monomorphized at `PumpfunMigrateEventV2`:
rebuild row `i` from the columns at index `i`. -/
def arrow_batch_to_vec (b : PumpfunMigrateEventV2Batch) : List PumpfunMigrateEventV2 :=
  (List.range b.num_rows).map (fun i =>
    { signature := b.signature.getD i ""
      slot := b.slot.getD i 0
      transaction_index := b.transaction_index.getD i 0
      instruction_index := b.instruction_index.getD i 0
      user := b.user.getD i ""
      mint := b.mint.getD i ""
      mint_amount := b.mint_amount.getD i 0
      sol_amount := b.sol_amount.getD i 0
      pool_migration_fee := b.pool_migration_fee.getD i 0
      bonding_curve := b.bonding_curve.getD i ""
      timestamp := b.timestamp.getD i 0
      pool := b.pool.getD i "" })

end PumpfunMigrateEventV2

/-- Columnar batch for `PumpfunAmmBuyEventV2`: one column per schema field plus
the row count, mirroring the `RecordBatch` produced by
`serde_arrow::to_record_batch` for this struct-of-primitives schema. -/
structure PumpfunAmmBuyEventV2Batch where
  num_rows : Nat
  signature : List String
  slot : List Nat
  transaction_index : List Nat
  instruction_index : List Nat
  base_mint : List String
  quote_mint : List String
  timestamp : List Nat
  base_amount_out : List Nat
  max_quote_amount_in : List Nat
  user_base_token_reserves : List Nat
  user_quote_token_reserves : List Nat
  pool_base_token_reserves : List Nat
  pool_quote_token_reserves : List Nat
  quote_amount_in : List Nat
  lp_fee_basis_points : List Nat
  lp_fee : List Nat
  protocol_fee_basis_points : List Nat
  protocol_fee : List Nat
  quote_amount_in_with_lp_fee : List Nat
  user_quote_amount_in : List Nat
  pool : List String
  user : List String
  user_base_token_account : List String
  user_quote_token_account : List String
  protocol_fee_recipient : List String
  protocol_fee_recipient_token_account : List String
  coin_creator : List String
  coin_creator_fee_basis_points : List Nat
  coin_creator_fee : List Nat
  track_volume : List Nat
  total_unclaimed_tokens : List Nat
  total_claimed_tokens : List Nat
  current_sol_volume : List Nat
  last_update_timestamp : List Int
  is_main_pool : List Nat
deriving DecidableEq, Repr

namespace PumpfunAmmBuyEventV2

/-- `vec_to_arrow_batch` monomorphized at `PumpfunAmmBuyEventV2`: each
column is the projection of the rows onto that field. -/
def vec_to_arrow_batch (rows : List PumpfunAmmBuyEventV2) : PumpfunAmmBuyEventV2Batch where
  num_rows := rows.length
  signature := rows.map (fun r => r.signature)
  slot := rows.map (fun r => r.slot)
  transaction_index := rows.map (fun r => r.transaction_index)
  instruction_index := rows.map (fun r => r.instruction_index)
  base_mint := rows.map (fun r => r.base_mint)
  quote_mint := rows.map (fun r => r.quote_mint)
  timestamp := rows.map (fun r => r.timestamp)
  base_amount_out := rows.map (fun r => r.base_amount_out)
  max_quote_amount_in := rows.map (fun r => r.max_quote_amount_in)
  user_base_token_reserves := rows.map (fun r => r.user_base_token_reserves)
  user_quote_token_reserves := rows.map (fun r => r.user_quote_token_reserves)
  pool_base_token_reserves := rows.map (fun r => r.pool_base_token_reserves)
  pool_quote_token_reserves := rows.map (fun r => r.pool_quote_token_reserves)
  quote_amount_in := rows.map (fun r => r.quote_amount_in)
  lp_fee_basis_points := rows.map (fun r => r.lp_fee_basis_points)
  lp_fee := rows.map (fun r => r.lp_fee)
  protocol_fee_basis_points := rows.map (fun r => r.protocol_fee_basis_points)
  protocol_fee := rows.map (fun r => r.protocol_fee)
  quote_amount_in_with_lp_fee := rows.map (fun r => r.quote_amount_in_with_lp_fee)
  user_quote_amount_in := rows.map (fun r => r.user_quote_amount_in)
  pool := rows.map (fun r => r.pool)
  user := rows.map (fun r => r.user)
  user_base_token_account := rows.map (fun r => r.user_base_token_account)
  user_quote_token_account := rows.map (fun r => r.user_quote_token_account)
  protocol_fee_recipient := rows.map (fun r => r.protocol_fee_recipient)
  protocol_fee_recipient_token_account := rows.map (fun r => r.protocol_fee_recipient_token_account)
  coin_creator := rows.map (fun r => r.coin_creator)
  coin_creator_fee_basis_points := rows.map (fun r => r.coin_creator_fee_basis_points)
  coin_creator_fee := rows.map (fun r => r.coin_creator_fee)
  track_volume := rows.map (fun r => r.track_volume)
  total_unclaimed_tokens := rows.map (fun r => r.total_unclaimed_tokens)
  total_claimed_tokens := rows.map (fun r => r.total_claimed_tokens)
  current_sol_volume := rows.map (fun r => r.current_sol_volume)
  last_update_timestamp := rows.map (fun r => r.last_update_timestamp)
  is_main_pool := rows.map (fun r => r.is_main_pool)

/-- `arrow_batch_to_vec` monomorphized at `PumpfunAmmBuyEventV2`:
rebuild row `i` from the columns at index `i`. -/
def arrow_batch_to_vec (b : PumpfunAmmBuyEventV2Batch) : List PumpfunAmmBuyEventV2 :=
  (List.range b.num_rows).map (fun i =>
    { signature := b.signature.getD i ""
      slot := b.slot.getD i 0
      transaction_index := b.transaction_index.getD i 0
      instruction_index := b.instruction_index.getD i 0
      base_mint := b.base_mint.getD i ""
      quote_mint := b.quote_mint.getD i ""
      timestamp := b.timestamp.getD i 0
      base_amount_out := b.base_amount_out.getD i 0
      max_quote_amount_in := b.max_quote_amount_in.getD i 0
      user_base_token_reserves := b.user_base_token_reserves.getD i 0
      user_quote_token_reserves := b.user_quote_token_reserves.getD i 0
      pool_base_token_reserves := b.pool_base_token_reserves.getD i 0
      pool_quote_token_reserves := b.pool_quote_token_reserves.getD i 0
      quote_amount_in := b.quote_amount_in.getD i 0
      lp_fee_basis_points := b.lp_fee_basis_points.getD i 0
      lp_fee := b.lp_fee.getD i 0
      protocol_fee_basis_points := b.protocol_fee_basis_points.getD i 0
      protocol_fee := b.protocol_fee.getD i 0
      quote_amount_in_with_lp_fee := b.quote_amount_in_with_lp_fee.getD i 0
      user_quote_amount_in := b.user_quote_amount_in.getD i 0
      pool := b.pool.getD i ""
      user := b.user.getD i ""
      user_base_token_account := b.user_base_token_account.getD i ""
      user_quote_token_account := b.user_quote_token_account.getD i ""
      protocol_fee_recipient := b.protocol_fee_recipient.getD i ""
      protocol_fee_recipient_token_account := b.protocol_fee_recipient_token_account.getD i ""
      coin_creator := b.coin_creator.getD i ""
      coin_creator_fee_basis_points := b.coin_creator_fee_basis_points.getD i 0
      coin_creator_fee := b.coin_creator_fee.getD i 0
      track_volume := b.track_volume.getD i 0
      total_unclaimed_tokens := b.total_unclaimed_tokens.getD i 0
      total_claimed_tokens := b.total_claimed_tokens.getD i 0
      current_sol_volume := b.current_sol_volume.getD i 0
      last_update_timestamp := b.last_update_timestamp.getD i 0
      is_main_pool := b.is_main_pool.getD i 0 })

end PumpfunAmmBuyEventV2

/-- Columnar batch for `PumpfunAmmSellEventV2`: one column per schema field plus
the row count, mirroring the `RecordBatch` produced by
`serde_arrow::to_record_batch` for this struct-of-primitives schema. -/
structure PumpfunAmmSellEventV2Batch where
  num_rows : Nat
  signature : List String
  slot : List Nat
  transaction_index : List Nat
  instruction_index : List Nat
  base_mint : List String
  quote_mint : List String
  timestamp : List Nat
  base_amount_in : List Nat
  min_quote_amount_out : List Nat
  user_base_token_reserves : List Nat
  user_quote_token_reserves : List Nat
  pool_base_token_reserves : List Nat
  pool_quote_token_reserves : List Nat
  quote_amount_out : List Nat
  lp_fee_basis_points : List Nat
  lp_fee : List Nat
  protocol_fee_basis_points : List Nat
  protocol_fee : List Nat
  quote_amount_out_without_lp_fee : List Nat
  user_quote_amount_out : List Nat
  pool : List String
  user : List String
  user_base_token_account : List String
  user_quote_token_account : List String
  protocol_fee_recipient : List String
  protocol_fee_recipient_token_account : List String
  coin_creator : List String
  coin_creator_fee_basis_points : List Nat
  coin_creator_fee : List Nat
  is_main_pool : List Nat
deriving DecidableEq, Repr

namespace PumpfunAmmSellEventV2

/-- `vec_to_arrow_batch` monomorphized at `PumpfunAmmSellEventV2`: each
column is the projection of the rows onto that field. -/
def vec_to_arrow_batch (rows : List PumpfunAmmSellEventV2) : PumpfunAmmSellEventV2Batch where
  num_rows := rows.length
  signature := rows.map (fun r => r.signature)
  slot := rows.map (fun r => r.slot)
  transaction_index := rows.map (fun r => r.transaction_index)
  instruction_index := rows.map (fun r => r.instruction_index)
  base_mint := rows.map (fun r => r.base_mint)
  quote_mint := rows.map (fun r => r.quote_mint)
  timestamp := rows.map (fun r => r.timestamp)
  base_amount_in := rows.map (fun r => r.base_amount_in)
  min_quote_amount_out := rows.map (fun r => r.min_quote_amount_out)
  user_base_token_reserves := rows.map (fun r => r.user_base_token_reserves)
  user_quote_token_reserves := rows.map (fun r => r.user_quote_token_reserves)
  pool_base_token_reserves := rows.map (fun r => r.pool_base_token_reserves)
  pool_quote_token_reserves := rows.map (fun r => r.pool_quote_token_reserves)
  quote_amount_out := rows.map (fun r => r.quote_amount_out)
  lp_fee_basis_points := rows.map (fun r => r.lp_fee_basis_points)
  lp_fee := rows.map (fun r => r.lp_fee)
  protocol_fee_basis_points := rows.map (fun r => r.protocol_fee_basis_points)
  protocol_fee := rows.map (fun r => r.protocol_fee)
  quote_amount_out_without_lp_fee := rows.map (fun r => r.quote_amount_out_without_lp_fee)
  user_quote_amount_out := rows.map (fun r => r.user_quote_amount_out)
  pool := rows.map (fun r => r.pool)
  user := rows.map (fun r => r.user)
  user_base_token_account := rows.map (fun r => r.user_base_token_account)
  user_quote_token_account := rows.map (fun r => r.user_quote_token_account)
  protocol_fee_recipient := rows.map (fun r => r.protocol_fee_recipient)
  protocol_fee_recipient_token_account := rows.map (fun r => r.protocol_fee_recipient_token_account)
  coin_creator := rows.map (fun r => r.coin_creator)
  coin_creator_fee_basis_points := rows.map (fun r => r.coin_creator_fee_basis_points)
  coin_creator_fee := rows.map (fun r => r.coin_creator_fee)
  is_main_pool := rows.map (fun r => r.is_main_pool)

/-- `arrow_batch_to_vec` monomorphized at `PumpfunAmmSellEventV2`:
rebuild row `i` from the columns at index `i`. -/
def arrow_batch_to_vec (b : PumpfunAmmSellEventV2Batch) : List PumpfunAmmSellEventV2 :=
  (List.range b.num_rows).map (fun i =>
    { signature := b.signature.getD i ""
      slot := b.slot.getD i 0
      transaction_index := b.transaction_index.getD i 0
      instruction_index := b.instruction_index.getD i 0
      base_mint := b.base_mint.getD i ""
      quote_mint := b.quote_mint.getD i ""
      timestamp := b.timestamp.getD i 0
      base_amount_in := b.base_amount_in.getD i 0
      min_quote_amount_out := b.min_quote_amount_out.getD i 0
      user_base_token_reserves := b.user_base_token_reserves.getD i 0
      user_quote_token_reserves := b.user_quote_token_reserves.getD i 0
      pool_base_token_reserves := b.pool_base_token_reserves.getD i 0
      pool_quote_token_reserves := b.pool_quote_token_reserves.getD i 0
      quote_amount_out := b.quote_amount_out.getD i 0
      lp_fee_basis_points := b.lp_fee_basis_points.getD i 0
      lp_fee := b.lp_fee.getD i 0
      protocol_fee_basis_points := b.protocol_fee_basis_points.getD i 0
      protocol_fee := b.protocol_fee.getD i 0
      quote_amount_out_without_lp_fee := b.quote_amount_out_without_lp_fee.getD i 0
      user_quote_amount_out := b.user_quote_amount_out.getD i 0
      pool := b.pool.getD i ""
      user := b.user.getD i ""
      user_base_token_account := b.user_base_token_account.getD i ""
      user_quote_token_account := b.user_quote_token_account.getD i ""
      protocol_fee_recipient := b.protocol_fee_recipient.getD i ""
      protocol_fee_recipient_token_account := b.protocol_fee_recipient_token_account.getD i ""
      coin_creator := b.coin_creator.getD i ""
      coin_creator_fee_basis_points := b.coin_creator_fee_basis_points.getD i 0
      coin_creator_fee := b.coin_creator_fee.getD i 0
      is_main_pool := b.is_main_pool.getD i 0 })

end PumpfunAmmSellEventV2

/-- Columnar batch for `PumpfunAmmCreatePoolEventV2`: one column per schema field plus
the row count, mirroring the `RecordBatch` produced by
`serde_arrow::to_record_batch` for this struct-of-primitives schema. -/
structure PumpfunAmmCreatePoolEventV2Batch where
  num_rows : Nat
  signature : List String
  slot : List Nat
  transaction_index : List Nat
  instruction_index : List Nat
  timestamp : List Nat
  index : List Nat
  creator : List String
  base_mint : List String
  quote_mint : List String
  base_mint_decimals : List Nat
  quote_mint_decimals : List Nat
  base_amount_in : List Nat
  quote_amount_in : List Nat
  pool_base_amount : List Nat
  pool_quote_amount : List Nat
  minimum_liquidity : List Nat
  initial_liquidity : List Nat
  lp_token_amount_out : List Nat
  pool_bump : List Nat
  pool : List String
  lp_mint : List String
  user_base_token_account : List String
  user_quote_token_account : List String
  coin_creator : List String
  is_main_pool : List Nat
deriving DecidableEq, Repr

namespace PumpfunAmmCreatePoolEventV2

/-- `vec_to_arrow_batch` monomorphized at `PumpfunAmmCreatePoolEventV2`: each
column is the projection of the rows onto that field. -/
def vec_to_arrow_batch (rows : List PumpfunAmmCreatePoolEventV2) : PumpfunAmmCreatePoolEventV2Batch where
  num_rows := rows.length
  signature := rows.map (fun r => r.signature)
  slot := rows.map (fun r => r.slot)
  transaction_index := rows.map (fun r => r.transaction_index)
  instruction_index := rows.map (fun r => r.instruction_index)
  timestamp := rows.map (fun r => r.timestamp)
  index := rows.map (fun r => r.index)
  creator := rows.map (fun r => r.creator)
  base_mint := rows.map (fun r => r.base_mint)
  quote_mint := rows.map (fun r => r.quote_mint)
  base_mint_decimals := rows.map (fun r => r.base_mint_decimals)
  quote_mint_decimals := rows.map (fun r => r.quote_mint_decimals)
  base_amount_in := rows.map (fun r => r.base_amount_in)
  quote_amount_in := rows.map (fun r => r.quote_amount_in)
  pool_base_amount := rows.map (fun r => r.pool_base_amount)
  pool_quote_amount := rows.map (fun r => r.pool_quote_amount)
  minimum_liquidity := rows.map (fun r => r.minimum_liquidity)
  initial_liquidity := rows.map (fun r => r.initial_liquidity)
  lp_token_amount_out := rows.map (fun r => r.lp_token_amount_out)
  pool_bump := rows.map (fun r => r.pool_bump)
  pool := rows.map (fun r => r.pool)
  lp_mint := rows.map (fun r => r.lp_mint)
  user_base_token_account := rows.map (fun r => r.user_base_token_account)
  user_quote_token_account := rows.map (fun r => r.user_quote_token_account)
  coin_creator := rows.map (fun r => r.coin_creator)
  is_main_pool := rows.map (fun r => r.is_main_pool)

/-- `arrow_batch_to_vec` monomorphized at `PumpfunAmmCreatePoolEventV2`:
rebuild row `i` from the columns at index `i`. -/
def arrow_batch_to_vec (b : PumpfunAmmCreatePoolEventV2Batch) : List PumpfunAmmCreatePoolEventV2 :=
  (List.range b.num_rows).map (fun i =>
    { signature := b.signature.getD i ""
      slot := b.slot.getD i 0
      transaction_index := b.transaction_index.getD i 0
      instruction_index := b.instruction_index.getD i 0
      timestamp := b.timestamp.getD i 0
      index := b.index.getD i 0
      creator := b.creator.getD i ""
      base_mint := b.base_mint.getD i ""
      quote_mint := b.quote_mint.getD i ""
      base_mint_decimals := b.base_mint_decimals.getD i 0
      quote_mint_decimals := b.quote_mint_decimals.getD i 0
      base_amount_in := b.base_amount_in.getD i 0
      quote_amount_in := b.quote_amount_in.getD i 0
      pool_base_amount := b.pool_base_amount.getD i 0
      pool_quote_amount := b.pool_quote_amount.getD i 0
      minimum_liquidity := b.minimum_liquidity.getD i 0
      initial_liquidity := b.initial_liquidity.getD i 0
      lp_token_amount_out := b.lp_token_amount_out.getD i 0
      pool_bump := b.pool_bump.getD i 0
      pool := b.pool.getD i ""
      lp_mint := b.lp_mint.getD i ""
      user_base_token_account := b.user_base_token_account.getD i ""
      user_quote_token_account := b.user_quote_token_account.getD i ""
      coin_creator := b.coin_creator.getD i ""
      is_main_pool := b.is_main_pool.getD i 0 })

end PumpfunAmmCreatePoolEventV2

/-- Columnar batch for `PumpfunAmmDepositEventV2`: one column per schema field plus
the row count, mirroring the `RecordBatch` produced by
`serde_arrow::to_record_batch` for this struct-of-primitives schema. -/
structure PumpfunAmmDepositEventV2Batch where
  num_rows : Nat
  signature : List String
  slot : List Nat
  transaction_index : List Nat
  instruction_index : List Nat
  base_mint : List String
  quote_mint : List String
  timestamp : List Nat
  lp_token_amount_out : List Nat
  max_base_amount_in : List Nat
  max_quote_amount_in : List Nat
  user_base_token_reserves : List Nat
  user_quote_token_reserves : List Nat
  pool_base_token_reserves : List Nat
  pool_quote_token_reserves : List Nat
  base_amount_in : List Nat
  quote_amount_in : List Nat
  lp_mint_supply : List Nat
  pool : List String
  user : List String
  user_base_token_account : List String
  user_quote_token_account : List String
  user_pool_token_account : List String
  is_main_pool : List Nat
deriving DecidableEq, Repr

namespace PumpfunAmmDepositEventV2

/-- `vec_to_arrow_batch` monomorphized at `PumpfunAmmDepositEventV2`: each
column is the projection of the rows onto that field. -/
def vec_to_arrow_batch (rows : List PumpfunAmmDepositEventV2) : PumpfunAmmDepositEventV2Batch where
  num_rows := rows.length
  signature := rows.map (fun r => r.signature)
  slot := rows.map (fun r => r.slot)
  transaction_index := rows.map (fun r => r.transaction_index)
  instruction_index := rows.map (fun r => r.instruction_index)
  base_mint := rows.map (fun r => r.base_mint)
  quote_mint := rows.map (fun r => r.quote_mint)
  timestamp := rows.map (fun r => r.timestamp)
  lp_token_amount_out := rows.map (fun r => r.lp_token_amount_out)
  max_base_amount_in := rows.map (fun r => r.max_base_amount_in)
  max_quote_amount_in := rows.map (fun r => r.max_quote_amount_in)
  user_base_token_reserves := rows.map (fun r => r.user_base_token_reserves)
  user_quote_token_reserves := rows.map (fun r => r.user_quote_token_reserves)
  pool_base_token_reserves := rows.map (fun r => r.pool_base_token_reserves)
  pool_quote_token_reserves := rows.map (fun r => r.pool_quote_token_reserves)
  base_amount_in := rows.map (fun r => r.base_amount_in)
  quote_amount_in := rows.map (fun r => r.quote_amount_in)
  lp_mint_supply := rows.map (fun r => r.lp_mint_supply)
  pool := rows.map (fun r => r.pool)
  user := rows.map (fun r => r.user)
  user_base_token_account := rows.map (fun r => r.user_base_token_account)
  user_quote_token_account := rows.map (fun r => r.user_quote_token_account)
  user_pool_token_account := rows.map (fun r => r.user_pool_token_account)
  is_main_pool := rows.map (fun r => r.is_main_pool)

/-- `arrow_batch_to_vec` monomorphized at `PumpfunAmmDepositEventV2`:
rebuild row `i` from the columns at index `i`. -/
def arrow_batch_to_vec (b : PumpfunAmmDepositEventV2Batch) : List PumpfunAmmDepositEventV2 :=
  (List.range b.num_rows).map (fun i =>
    { signature := b.signature.getD i ""
      slot := b.slot.getD i 0
      transaction_index := b.transaction_index.getD i 0
      instruction_index := b.instruction_index.getD i 0
      base_mint := b.base_mint.getD i ""
      quote_mint := b.quote_mint.getD i ""
      timestamp := b.timestamp.getD i 0
      lp_token_amount_out := b.lp_token_amount_out.getD i 0
      max_base_amount_in := b.max_base_amount_in.getD i 0
      max_quote_amount_in := b.max_quote_amount_in.getD i 0
      user_base_token_reserves := b.user_base_token_reserves.getD i 0
      user_quote_token_reserves := b.user_quote_token_reserves.getD i 0
      pool_base_token_reserves := b.pool_base_token_reserves.getD i 0
      pool_quote_token_reserves := b.pool_quote_token_reserves.getD i 0
      base_amount_in := b.base_amount_in.getD i 0
      quote_amount_in := b.quote_amount_in.getD i 0
      lp_mint_supply := b.lp_mint_supply.getD i 0
      pool := b.pool.getD i ""
      user := b.user.getD i ""
      user_base_token_account := b.user_base_token_account.getD i ""
      user_quote_token_account := b.user_quote_token_account.getD i ""
      user_pool_token_account := b.user_pool_token_account.getD i ""
      is_main_pool := b.is_main_pool.getD i 0 })

end PumpfunAmmDepositEventV2

/-- Columnar batch for `PumpfunAmmWithdrawEventV2`: one column per schema field plus
the row count, mirroring the `RecordBatch` produced by
`serde_arrow::to_record_batch` for this struct-of-primitives schema. -/
structure PumpfunAmmWithdrawEventV2Batch where
  num_rows : Nat
  signature : List String
  slot : List Nat
  transaction_index : List Nat
  instruction_index : List Nat
  base_mint : List String
  quote_mint : List String
  timestamp : List Nat
  lp_token_amount_in : List Nat
  min_base_amount_out : List Nat
  min_quote_amount_out : List Nat
  user_base_token_reserves : List Nat
  user_quote_token_reserves : List Nat
  pool_base_token_reserves : List Nat
  pool_quote_token_reserves : List Nat
  base_amount_out : List Nat
  quote_amount_out : List Nat
  lp_mint_supply : List Nat
  pool : List String
  user : List String
  user_base_token_account : List String
  user_quote_token_account : List String
  user_pool_token_account : List String
  is_main_pool : List Nat
deriving DecidableEq, Repr

namespace PumpfunAmmWithdrawEventV2

/-- `vec_to_arrow_batch` monomorphized at `PumpfunAmmWithdrawEventV2`: each
column is the projection of the rows onto that field. -/
def vec_to_arrow_batch (rows : List PumpfunAmmWithdrawEventV2) : PumpfunAmmWithdrawEventV2Batch where
  num_rows := rows.length
  signature := rows.map (fun r => r.signature)
  slot := rows.map (fun r => r.slot)
  transaction_index := rows.map (fun r => r.transaction_index)
  instruction_index := rows.map (fun r => r.instruction_index)
  base_mint := rows.map (fun r => r.base_mint)
  quote_mint := rows.map (fun r => r.quote_mint)
  timestamp := rows.map (fun r => r.timestamp)
  lp_token_amount_in := rows.map (fun r => r.lp_token_amount_in)
  min_base_amount_out := rows.map (fun r => r.min_base_amount_out)
  min_quote_amount_out := rows.map (fun r => r.min_quote_amount_out)
  user_base_token_reserves := rows.map (fun r => r.user_base_token_reserves)
  user_quote_token_reserves := rows.map (fun r => r.user_quote_token_reserves)
  pool_base_token_reserves := rows.map (fun r => r.pool_base_token_reserves)
  pool_quote_token_reserves := rows.map (fun r => r.pool_quote_token_reserves)
  base_amount_out := rows.map (fun r => r.base_amount_out)
  quote_amount_out := rows.map (fun r => r.quote_amount_out)
  lp_mint_supply := rows.map (fun r => r.lp_mint_supply)
  pool := rows.map (fun r => r.pool)
  user := rows.map (fun r => r.user)
  user_base_token_account := rows.map (fun r => r.user_base_token_account)
  user_quote_token_account := rows.map (fun r => r.user_quote_token_account)
  user_pool_token_account := rows.map (fun r => r.user_pool_token_account)
  is_main_pool := rows.map (fun r => r.is_main_pool)

/-- `arrow_batch_to_vec` monomorphized at `PumpfunAmmWithdrawEventV2`:
rebuild row `i` from the columns at index `i`. -/
def arrow_batch_to_vec (b : PumpfunAmmWithdrawEventV2Batch) : List PumpfunAmmWithdrawEventV2 :=
  (List.range b.num_rows).map (fun i =>
    { signature := b.signature.getD i ""
      slot := b.slot.getD i 0
      transaction_index := b.transaction_index.getD i 0
      instruction_index := b.instruction_index.getD i 0
      base_mint := b.base_mint.getD i ""
      quote_mint := b.quote_mint.getD i ""
      timestamp := b.timestamp.getD i 0
      lp_token_amount_in := b.lp_token_amount_in.getD i 0
      min_base_amount_out := b.min_base_amount_out.getD i 0
      min_quote_amount_out := b.min_quote_amount_out.getD i 0
      user_base_token_reserves := b.user_base_token_reserves.getD i 0
      user_quote_token_reserves := b.user_quote_token_reserves.getD i 0
      pool_base_token_reserves := b.pool_base_token_reserves.getD i 0
      pool_quote_token_reserves := b.pool_quote_token_reserves.getD i 0
      base_amount_out := b.base_amount_out.getD i 0
      quote_amount_out := b.quote_amount_out.getD i 0
      lp_mint_supply := b.lp_mint_supply.getD i 0
      pool := b.pool.getD i ""
      user := b.user.getD i ""
      user_base_token_account := b.user_base_token_account.getD i ""
      user_quote_token_account := b.user_quote_token_account.getD i ""
      user_pool_token_account := b.user_pool_token_account.getD i ""
      is_main_pool := b.is_main_pool.getD i 0 })

end PumpfunAmmWithdrawEventV2

/-! ## `ParquetHelper::read_parquet` and
`ClickHouseImporter::import_parquet` (`syncer/src/parquet_helper.rs`,
`syncer/src/importer.rs`) -/

namespace ParquetHelper

/-- The `while let Some(batch) = reader.next()` loop with `batch?`:
collect the yielded batches in order, propagating the first reader
error. -/
def collectBatches {α : Type} : List (Except String α) → Except String (List α)
  | [] => Except.ok []
  | Except.error e :: _ => Except.error e
  | Except.ok b :: rest =>
    match collectBatches rest with
    | Except.ok bs => Except.ok (b :: bs)
    | Except.error e => Except.error e

/-- Source `ParquetHelper::read_parquet` as a function of the sequence
of batches the parquet reader yields; `concat_batches` stands for
`arrow::compute::concat_batches` applied when two or more batches were
read. -/
def read_parquet {α : Type} (yields : List (Except String α))
    (concat_batches : List α → Except String α) : Except String α :=
  match collectBatches yields with
  | Except.error e => Except.error e
  | Except.ok [] => Except.error "Parquet file is empty"
  | Except.ok [b] => Except.ok b
  | Except.ok batches => concat_batches batches

end ParquetHelper

namespace ClickHouseImporter

/-- Source `ClickHouseImporter::import_parquet`: read the file (the `?`
propagates the reader error), then deserialize the batch and bulk
insert, returning the row count. -/
def import_parquet {α : Type} (yields : List (Except String α))
    (concat_batches : List α → Except String α)
    (deserialize_and_insert : α → Except String Nat) : Except String Nat :=
  match ParquetHelper.read_parquet yields concat_batches with
  | Except.error e => Except.error e
  | Except.ok batch => deserialize_and_insert batch

end ClickHouseImporter

/-! ## Concrete sample inputs used by counterexamples and witnesses -/

namespace Samples

open TransactionConverter

/-- Concrete stand-in for `global_bs58().encode_32`. -/
def e32c : Bytes → String := fun _ => "K"

/-- Concrete stand-in for `global_bs58().encode_64`. -/
def e64c : Bytes → String := fun _ => "S"

/-- Concrete trade-event payload. -/
def sampleTrade : TradeEvent :=
  ⟨[1], 10, 20, true, [2], 5, 0, 0, 0, 0, [3], 0, 0, [4], 0, 0, false, 0, 0, 0, 7⟩

/-- Concrete create-event payload. -/
def sampleCreate : CreateEvent :=
  ⟨"tok", "TOK", "u", [1], [2], [3], [4], 5, 0, 0, 0, 0⟩

/-- Concrete migrate-event payload. -/
def sampleMigrate : MigrationEvent :=
  ⟨[1], [2], 3, 4, 5, [6], 7, [8]⟩

/-- Concrete AMM buy-event payload. -/
def sampleAmmBuyEvent : AmmBuyEvent :=
  ⟨5, 1, 2, 0, 0, 0, 0, 3, 0, 0, 0, 0, 0, 0, [1], 0, 0, false, 0, 0, 0, 7⟩

/-- A non-event instruction with an arbitrary parsed payload. -/
def instrOther (tag : String) : Instruction :=
  ⟨tag, some (Parsed.otherVariant tag)⟩

/-- A recognized trade-event instruction. -/
def instrTradeEvent : Instruction :=
  ⟨"PumpFunTradeEvent", some (Parsed.pumpfunTradeEvent sampleTrade)⟩

/-- A recognized create-event instruction. -/
def instrCreateEvent : Instruction :=
  ⟨"PumpFunCreateEvent", some (Parsed.pumpfunCreateEvent sampleCreate)⟩

/-- A recognized migrate-event instruction. -/
def instrMigrateEvent : Instruction :=
  ⟨"PumpFunMigrateEvent", some (Parsed.pumpfunMigrationEvent sampleMigrate)⟩

/-- A recognized AMM buy-event instruction. -/
def instrAmmBuyEvent : Instruction :=
  ⟨"PumpFunAmmBuyEvent", some (Parsed.pumpfunAmmBuyEvent sampleAmmBuyEvent)⟩

/-- An AMM buy action instruction whose `accounts` field is `None`. -/
def instrAmmBuyActionNone : Instruction :=
  ⟨"PumpFunAmmBuy", some (Parsed.pumpfunAmmBuy ⟨none, true⟩)⟩

/-- Two actions followed by two consecutive trade events: the second
event pops the first action off the still-populated stack. -/
def txC1cex : Transaction :=
  ⟨[9, 9], 100, 3, [instrOther "PumpFunBuy", instrOther "PumpFunSell",
    instrTradeEvent, instrTradeEvent]⟩

/-- Two consecutive trade events with nothing before them. -/
def txC1wit : Transaction :=
  ⟨[9, 9], 100, 3, [instrTradeEvent, instrTradeEvent]⟩

/-- An AMM buy action (a mismatched variant for a trade event)
immediately followed by a trade event. -/
def txC2cex : Transaction :=
  ⟨[9, 9], 100, 3, [instrAmmBuyActionNone, instrTradeEvent]⟩

/-- A non-AMM action immediately followed by an AMM buy event (variant
mismatch). -/
def txC2wit : Transaction :=
  ⟨[9, 9], 100, 3, [instrOther "PumpFunBuy", instrAmmBuyEvent]⟩

/-- A matching AMM buy action with `accounts = None` followed by an AMM
buy event. -/
def txC9acc : Transaction :=
  ⟨[9, 9], 100, 3, [instrAmmBuyActionNone, instrAmmBuyEvent]⟩

/-- An arbitrary parsed action followed by a create event. -/
def txC9create : Transaction :=
  ⟨[9, 9], 100, 3, [instrOther "PumpFunCreate", instrCreateEvent]⟩

/-- An arbitrary parsed action followed by a migrate event. -/
def txC9migrate : Transaction :=
  ⟨[9, 9], 100, 3, [instrOther "PumpFunMigrate", instrMigrateEvent]⟩

/-- Directory with a doubled `.meta` extension and a start-slot tie. -/
def exC3cex : List DirEntry :=
  [⟨"a.meta.meta", true⟩, ⟨"a.bin", true⟩, ⟨"1_2.meta", true⟩,
   ⟨"1_2.bin", true⟩, ⟨"1_3.meta", true⟩, ⟨"1_3.bin", true⟩]

/-- The spec's scanner example directory. -/
def exScanSpec : List DirEntry :=
  [⟨"100_200.meta", true⟩, ⟨"100_200.bin", true⟩, ⟨"300_400.meta", true⟩,
   ⟨"300_400.bin", true⟩, ⟨"700_800.bin", true⟩]

/-- A complete pair with a non-numeric start segment. -/
def exC4cex : List DirEntry :=
  [⟨"abc_def.meta", true⟩, ⟨"abc_def.bin", true⟩]

/-- A non-numeric-start pair next to a numeric one. -/
def exC4wit : List DirEntry :=
  [⟨"abc_def.meta", true⟩, ⟨"abc_def.bin", true⟩,
   ⟨"123_456.meta", true⟩, ⟨"123_456.bin", true⟩]

/-- Two completion records for the same prefix, oldest first. -/
def c5Lines : List String :=
  ["2025-01-01T00:00:00+00:00,100_200,completed",
   "2025-01-02T00:00:00+00:00,100_200,completed"]

/-- A completion log with one completed unit. -/
def c6Lines : List String :=
  ["2025-01-01T00:00:00+00:00,100_200,completed"]

/-- Scanned pairs, one already completed. -/
def c6Pairs : List FilePair :=
  [⟨"100_200", "100_200.meta", "100_200.bin"⟩,
   ⟨"300_400", "300_400.meta", "300_400.bin"⟩]

/-- Per-hour unique counts for the sync-checker witness. -/
def c7Local : List (Nat × Nat) := [(3600, 5), (7200, 7)]

/-- Remote side of the sync-checker witness. -/
def c7Remote : List (Nat × Nat) := [(3600, 5), (10800, 2)]

end Samples

/-! ## Theorems -/

namespace TransactionConverter

theorem pairEvent_stack (e32 e64 : Bytes → String) (tx : Transaction) (i : Nat)
    (instr prev : Instruction) (s : ConvState) :
    (pairEvent e32 e64 tx i instr prev s).stack = s.stack := by
  unfold pairEvent
  repeat' split <;> try rfl

theorem hasRowAt_pairEvent_of_ne (e32 e64 : Bytes → String) (tx : Transaction) (i : Nat)
    (instr prev : Instruction) (s : ConvState) (j : Nat) (h : j ≠ i) :
    hasRowAt (pairEvent e32 e64 tx i instr prev s) j = hasRowAt s j := by
  have hij : (i == j) = false := by simp [Ne.symm h]
  unfold pairEvent
  repeat' split <;> first
    | rfl
    | simp [hasRowAt, List.any_append, hij]
    | skip

theorem stack_processInstr (e32 e64 : Bytes → String) (tx : Transaction) (i : Nat)
    (instr : Instruction) (s : ConvState) :
    (processInstr e32 e64 tx i instr s).stack = stackUpd s.stack instr := by
  unfold processInstr stackUpd
  by_cases hev : is_event instr
  · simp only [hev, if_true]
    cases hst : s.stack with
    | nil => simp [hst]
    | cons prev rest => simp [pairEvent_stack]
  · simp [hev]

theorem stack_convertLoop (e32 e64 : Bytes → String) (tx : Transaction)
    (l : List Instruction) (i : Nat) (s : ConvState) :
    (convertLoop e32 e64 tx i l s).stack = l.foldl stackUpd s.stack := by
  induction l generalizing i s with
  | nil => rfl
  | cons a rest ih => simp [convertLoop, ih, stack_processInstr]

theorem hasRowAt_processInstr_of_ne (e32 e64 : Bytes → String) (tx : Transaction) (i : Nat)
    (instr : Instruction) (s : ConvState) (j : Nat) (h : j ≠ i) :
    hasRowAt (processInstr e32 e64 tx i instr s) j = hasRowAt s j := by
  unfold processInstr
  by_cases hev : is_event instr
  · simp only [hev, if_true]
    cases hst : s.stack with
    | nil => rfl
    | cons prev rest =>
      rw [hasRowAt_pairEvent_of_ne _ _ _ _ _ _ _ _ h]
      rfl
  · simp only [hev, Bool.false_eq_true, if_false]
    rfl

theorem hasRowAt_convertLoop_of_lt (e32 e64 : Bytes → String) (tx : Transaction)
    (l : List Instruction) (i : Nat) (s : ConvState) (j : Nat) (h : j < i) :
    hasRowAt (convertLoop e32 e64 tx i l s) j = hasRowAt s j := by
  induction l generalizing i s with
  | nil => rfl
  | cons a rest ih =>
    rw [convertLoop, ih (i + 1) _ (Nat.lt_succ_of_lt h),
      hasRowAt_processInstr_of_ne _ _ _ _ _ _ _ (Nat.ne_of_lt h)]

theorem hasRowAt_convertLoop_of_ge (e32 e64 : Bytes → String) (tx : Transaction)
    (l : List Instruction) (i : Nat) (s : ConvState) (j : Nat) (h : i + l.length ≤ j) :
    hasRowAt (convertLoop e32 e64 tx i l s) j = hasRowAt s j := by
  induction l generalizing i s with
  | nil => rfl
  | cons a rest ih =>
    have h1 : i + 1 + rest.length ≤ j := by
      simp only [List.length_cons] at h
      omega
    have h2 : j ≠ i := by
      simp only [List.length_cons] at h
      omega
    rw [convertLoop, ih (i + 1) _ h1, hasRowAt_processInstr_of_ne _ _ _ _ _ _ _ h2]

theorem convertLoop_append (e32 e64 : Bytes → String) (tx : Transaction)
    (l1 l2 : List Instruction) (i : Nat) (s : ConvState) :
    convertLoop e32 e64 tx i (l1 ++ l2) s
      = convertLoop e32 e64 tx (i + l1.length) l2 (convertLoop e32 e64 tx i l1 s) := by
  induction l1 generalizing i s with
  | nil => simp [convertLoop]
  | cons a rest ih =>
    simp only [List.cons_append, List.length_cons]
    rw [convertLoop, ih, convertLoop]
    have h : i + 1 + rest.length = i + (rest.length + 1) := by omega
    rw [h]

end TransactionConverter

namespace TransactionConverter

theorem pairEvent_ammbuy_mismatch (e32 e64 : Bytes → String) (tx : Transaction) (i : Nat)
    (ev prev : Instruction) (s : ConvState)
    (hty : ev.ty = "PumpFunAmmBuyEvent") (hmis : isAmmBuyAction prev = false) :
    pairEvent e32 e64 tx i ev prev s = s := by
  unfold pairEvent
  rw [hty]
  cases hep : ev.parsed with
  | none => simp
  | some p =>
    cases p <;> simp_all [isAmmBuyAction] <;>
      (cases hpp : prev.parsed with
       | none => simp
       | some q => cases q <;> simp_all [isAmmBuyAction])

theorem pairEvent_ammsell_mismatch (e32 e64 : Bytes → String) (tx : Transaction) (i : Nat)
    (ev prev : Instruction) (s : ConvState)
    (hty : ev.ty = "PumpFunAmmSellEvent") (hmis : isAmmSellAction prev = false) :
    pairEvent e32 e64 tx i ev prev s = s := by
  unfold pairEvent
  rw [hty]
  cases hep : ev.parsed with
  | none => simp
  | some p =>
    cases p <;> simp_all [isAmmSellAction] <;>
      (cases hpp : prev.parsed with
       | none => simp
       | some q => cases q <;> simp_all [isAmmSellAction])

theorem pairEvent_ammdeposit_mismatch (e32 e64 : Bytes → String) (tx : Transaction) (i : Nat)
    (ev prev : Instruction) (s : ConvState)
    (hty : ev.ty = "PumpFunAmmDepositEvent") (hmis : isAmmDepositAction prev = false) :
    pairEvent e32 e64 tx i ev prev s = s := by
  unfold pairEvent
  rw [hty]
  cases hep : ev.parsed with
  | none => simp
  | some p =>
    cases p <;> simp_all [isAmmDepositAction] <;>
      (cases hpp : prev.parsed with
       | none => simp
       | some q => cases q <;> simp_all [isAmmDepositAction])

theorem pairEvent_ammwithdraw_mismatch (e32 e64 : Bytes → String) (tx : Transaction) (i : Nat)
    (ev prev : Instruction) (s : ConvState)
    (hty : ev.ty = "PumpFunAmmWithdrawEvent") (hmis : isAmmWithdrawAction prev = false) :
    pairEvent e32 e64 tx i ev prev s = s := by
  unfold pairEvent
  rw [hty]
  cases hep : ev.parsed with
  | none => simp
  | some p =>
    cases p <;> simp_all [isAmmWithdrawAction] <;>
      (cases hpp : prev.parsed with
       | none => simp
       | some q => cases q <;> simp_all [isAmmWithdrawAction])

theorem pairEvent_ammcreatepool_mismatch (e32 e64 : Bytes → String) (tx : Transaction) (i : Nat)
    (ev prev : Instruction) (s : ConvState)
    (hty : ev.ty = "PumpFunAmmCreatePoolEvent") (hmis : isAmmCreatePoolAction prev = false) :
    pairEvent e32 e64 tx i ev prev s = s := by
  unfold pairEvent
  rw [hty]
  cases hep : ev.parsed with
  | none => simp
  | some p =>
    cases p <;> simp_all [isAmmCreatePoolAction] <;>
      (cases hpp : prev.parsed with
       | none => simp
       | some q => cases q <;> simp_all [isAmmCreatePoolAction])

theorem pairEvent_amm_mismatch (e32 e64 : Bytes → String) (tx : Transaction) (i : Nat)
    (ev prev : Instruction) (s : ConvState)
    (hmis : amm_event_mismatch ev prev = true) :
    pairEvent e32 e64 tx i ev prev s = s := by
  unfold amm_event_mismatch at hmis
  simp only [Bool.or_eq_true, Bool.and_eq_true, beq_iff_eq, Bool.not_eq_true] at hmis
  rcases hmis with (((⟨hty, hm⟩ | ⟨hty, hm⟩) | ⟨hty, hm⟩) | ⟨hty, hm⟩) | ⟨hty, hm⟩
  · exact pairEvent_ammbuy_mismatch _ _ _ _ _ _ _ hty (by simpa using hm)
  · exact pairEvent_ammsell_mismatch _ _ _ _ _ _ _ hty (by simpa using hm)
  · exact pairEvent_ammdeposit_mismatch _ _ _ _ _ _ _ hty (by simpa using hm)
  · exact pairEvent_ammwithdraw_mismatch _ _ _ _ _ _ _ hty (by simpa using hm)
  · exact pairEvent_ammcreatepool_mismatch _ _ _ _ _ _ _ hty (by simpa using hm)

theorem is_event_of_amm_mismatch (ev act : Instruction)
    (hmis : amm_event_mismatch ev act = true) : is_event ev = true := by
  unfold amm_event_mismatch at hmis
  simp only [Bool.or_eq_true, Bool.and_eq_true, beq_iff_eq, Bool.not_eq_true] at hmis
  rcases hmis with (((⟨hty, _⟩ | ⟨hty, _⟩) | ⟨hty, _⟩) | ⟨hty, _⟩) | ⟨hty, _⟩ <;>
    simp [is_event, hty]

theorem is_event_of_amm_accounts_none (ev act : Instruction)
    (hmis : amm_event_accounts_none ev act = true) : is_event ev = true := by
  unfold amm_event_accounts_none at hmis
  simp only [Bool.or_eq_true, Bool.and_eq_true, beq_iff_eq] at hmis
  rcases hmis with (((⟨hty, _⟩ | ⟨hty, _⟩) | ⟨hty, _⟩) | ⟨hty, _⟩) | ⟨hty, _⟩ <;>
    simp [is_event, hty]

theorem pairEvent_amm_accounts_none (e32 e64 : Bytes → String) (tx : Transaction) (i : Nat)
    (ev prev : Instruction) (s : ConvState)
    (hmis : amm_event_accounts_none ev prev = true) :
    pairEvent e32 e64 tx i ev prev s = s := by
  unfold amm_event_accounts_none at hmis
  simp only [Bool.or_eq_true, Bool.and_eq_true, beq_iff_eq] at hmis
  rcases hmis with (((⟨hty, hm⟩ | ⟨hty, hm⟩) | ⟨hty, hm⟩) | ⟨hty, hm⟩) | ⟨hty, hm⟩ <;>
    (unfold pairEvent
     rw [hty]
     cases hep : ev.parsed with
     | none => simp
     | some p =>
       cases p <;>
         (try rfl) <;>
         (cases hpp : prev.parsed with
          | none => simp
          | some q => cases q <;> simp_all [Option.isNone_iff_eq_none]))

end TransactionConverter

namespace TransactionConverter

theorem hasRowAt_convert_eq_step (e32 e64 : Bytes → String) (tx : Transaction) (i : Nat)
    (ev : Instruction) (h0 : tx.instructions.get? i = some ev) :
    hasRowAt (convert e32 e64 tx) i
      = hasRowAt (processInstr e32 e64 tx i ev
          (convertLoop e32 e64 tx 0 (tx.instructions.take i) initState)) i := by
  obtain ⟨hlt, hget⟩ := List.get?_eq_some.mp h0
  have hklen : (tx.instructions.take i).length = i := by
    simp only [List.length_take]
    omega
  have hdrop : tx.instructions.drop i = ev :: tx.instructions.drop (i + 1) := by
    rw [List.drop_eq_getElem_cons hlt]
    congr 1
  have hconv : convert e32 e64 tx
      = convertLoop e32 e64 tx (0 + (tx.instructions.take i).length)
          (tx.instructions.drop i)
          (convertLoop e32 e64 tx 0 (tx.instructions.take i) initState) := by
    conv_lhs => rw [convert, ← List.take_append_drop i tx.instructions]
    rw [convertLoop_append]
  rw [hconv, hklen, hdrop, Nat.zero_add, convertLoop,
    hasRowAt_convertLoop_of_lt _ _ _ _ _ _ _ (Nat.lt_succ_self i)]

theorem hasRowAt_prefixState_false (e32 e64 : Bytes → String) (tx : Transaction) (i : Nat) :
    hasRowAt (convertLoop e32 e64 tx 0 (tx.instructions.take i) initState) i = false := by
  rw [hasRowAt_convertLoop_of_ge]
  · rfl
  · simp only [List.length_take, Nat.zero_add]
    omega

theorem stack_prefixState (e32 e64 : Bytes → String) (tx : Transaction) (i : Nat) :
    (convertLoop e32 e64 tx 0 (tx.instructions.take i) initState).stack
      = stackBefore tx i := by
  rw [stack_convertLoop]
  rfl

theorem hasRowAt_pairEvent_trade (e32 e64 : Bytes → String) (tx : Transaction) (i : Nat)
    (ev prev : Instruction) (s : ConvState) (te : TradeEvent) (q : Parsed)
    (hty : ev.ty = "PumpFunTradeEvent")
    (hep : ev.parsed = some (Parsed.pumpfunTradeEvent te))
    (hpp : prev.parsed = some q) :
    hasRowAt (pairEvent e32 e64 tx i ev prev s) i = true := by
  unfold pairEvent
  rw [hty]
  simp [hep, hpp, hasRowAt, List.any_append]

theorem hasRowAt_pairEvent_create (e32 e64 : Bytes → String) (tx : Transaction) (i : Nat)
    (ev prev : Instruction) (s : ConvState) (ce : CreateEvent) (q : Parsed)
    (hty : ev.ty = "PumpFunCreateEvent")
    (hep : ev.parsed = some (Parsed.pumpfunCreateEvent ce))
    (hpp : prev.parsed = some q) :
    hasRowAt (pairEvent e32 e64 tx i ev prev s) i = true := by
  unfold pairEvent
  rw [hty]
  simp [hep, hpp, hasRowAt, List.any_append]

theorem hasRowAt_pairEvent_migrate (e32 e64 : Bytes → String) (tx : Transaction) (i : Nat)
    (ev prev : Instruction) (s : ConvState) (me : MigrationEvent) (q : Parsed)
    (hty : ev.ty = "PumpFunMigrateEvent")
    (hep : ev.parsed = some (Parsed.pumpfunMigrationEvent me))
    (hpp : prev.parsed = some q) :
    hasRowAt (pairEvent e32 e64 tx i ev prev s) i = true := by
  unfold pairEvent
  rw [hty]
  simp [hep, hpp, hasRowAt, List.any_append]

theorem amm_mismatch_no_row (e32 e64 : Bytes → String) (tx : Transaction) (i : Nat)
    (ev prev : Instruction) (rest : List Instruction)
    (h0 : tx.instructions.get? i = some ev)
    (hstk : stackBefore tx i = prev :: rest)
    (hmis : amm_event_mismatch ev prev = true) :
    hasRowAt (convert e32 e64 tx) i = false := by
  rw [hasRowAt_convert_eq_step e32 e64 tx i ev h0]
  have hsst : (convertLoop e32 e64 tx 0 (tx.instructions.take i) initState).stack
      = prev :: rest := by rw [stack_prefixState]; exact hstk
  unfold processInstr
  simp only [is_event_of_amm_mismatch ev prev hmis, if_true, hsst]
  rw [pairEvent_amm_mismatch _ _ _ _ _ _ _ hmis]
  exact hasRowAt_prefixState_false e32 e64 tx i

theorem amm_accounts_none_no_row (e32 e64 : Bytes → String) (tx : Transaction) (i : Nat)
    (ev prev : Instruction) (rest : List Instruction)
    (h0 : tx.instructions.get? i = some ev)
    (hstk : stackBefore tx i = prev :: rest)
    (hmis : amm_event_accounts_none ev prev = true) :
    hasRowAt (convert e32 e64 tx) i = false := by
  rw [hasRowAt_convert_eq_step e32 e64 tx i ev h0]
  have hsst : (convertLoop e32 e64 tx 0 (tx.instructions.take i) initState).stack
      = prev :: rest := by rw [stack_prefixState]; exact hstk
  unfold processInstr
  simp only [is_event_of_amm_accounts_none ev prev hmis, if_true, hsst]
  rw [pairEvent_amm_accounts_none _ _ _ _ _ _ _ hmis]
  exact hasRowAt_prefixState_false e32 e64 tx i

theorem trade_any_action_row (e32 e64 : Bytes → String) (tx : Transaction) (i : Nat)
    (ev prev : Instruction) (rest : List Instruction) (te : TradeEvent) (q : Parsed)
    (h0 : tx.instructions.get? i = some ev)
    (hstk : stackBefore tx i = prev :: rest)
    (hty : ev.ty = "PumpFunTradeEvent")
    (hep : ev.parsed = some (Parsed.pumpfunTradeEvent te))
    (hpp : prev.parsed = some q) :
    hasRowAt (convert e32 e64 tx) i = true := by
  rw [hasRowAt_convert_eq_step e32 e64 tx i ev h0]
  have hsst : (convertLoop e32 e64 tx 0 (tx.instructions.take i) initState).stack
      = prev :: rest := by rw [stack_prefixState]; exact hstk
  unfold processInstr
  have hev : is_event ev = true := by simp [is_event, hty]
  simp only [hev, if_true, hsst]
  exact hasRowAt_pairEvent_trade _ _ _ _ _ _ _ _ _ hty hep hpp

theorem create_any_action_row (e32 e64 : Bytes → String) (tx : Transaction) (i : Nat)
    (ev prev : Instruction) (rest : List Instruction) (ce : CreateEvent) (q : Parsed)
    (h0 : tx.instructions.get? i = some ev)
    (hstk : stackBefore tx i = prev :: rest)
    (hty : ev.ty = "PumpFunCreateEvent")
    (hep : ev.parsed = some (Parsed.pumpfunCreateEvent ce))
    (hpp : prev.parsed = some q) :
    hasRowAt (convert e32 e64 tx) i = true := by
  rw [hasRowAt_convert_eq_step e32 e64 tx i ev h0]
  have hsst : (convertLoop e32 e64 tx 0 (tx.instructions.take i) initState).stack
      = prev :: rest := by rw [stack_prefixState]; exact hstk
  unfold processInstr
  have hev : is_event ev = true := by simp [is_event, hty]
  simp only [hev, if_true, hsst]
  exact hasRowAt_pairEvent_create _ _ _ _ _ _ _ _ _ hty hep hpp

theorem migrate_any_action_row (e32 e64 : Bytes → String) (tx : Transaction) (i : Nat)
    (ev prev : Instruction) (rest : List Instruction) (me : MigrationEvent) (q : Parsed)
    (h0 : tx.instructions.get? i = some ev)
    (hstk : stackBefore tx i = prev :: rest)
    (hty : ev.ty = "PumpFunMigrateEvent")
    (hep : ev.parsed = some (Parsed.pumpfunMigrationEvent me))
    (hpp : prev.parsed = some q) :
    hasRowAt (convert e32 e64 tx) i = true := by
  rw [hasRowAt_convert_eq_step e32 e64 tx i ev h0]
  have hsst : (convertLoop e32 e64 tx 0 (tx.instructions.take i) initState).stack
      = prev :: rest := by rw [stack_prefixState]; exact hstk
  unfold processInstr
  have hev : is_event ev = true := by simp [is_event, hty]
  simp only [hev, if_true, hsst]
  exact hasRowAt_pairEvent_migrate _ _ _ _ _ _ _ _ _ hty hep hpp

theorem second_event_no_row (e32 e64 : Bytes → String) (tx : Transaction) (i : Nat)
    (e0 e1 : Instruction)
    (h0 : tx.instructions.get? i = some e0)
    (h1 : tx.instructions.get? (i + 1) = some e1)
    (hev0 : is_event e0 = true) (hev1 : is_event e1 = true)
    (hstk : stackBefore tx (i + 1) = []) :
    hasRowAt (convert e32 e64 tx) (i + 1) = false := by
  rw [hasRowAt_convert_eq_step e32 e64 tx (i + 1) e1 h1]
  have hsst : (convertLoop e32 e64 tx 0 (tx.instructions.take (i + 1)) initState).stack
      = [] := by rw [stack_prefixState]; exact hstk
  unfold processInstr
  simp only [hev1, if_true, hsst]
  exact hasRowAt_prefixState_false e32 e64 tx (i + 1)

end TransactionConverter

open TransactionConverter Samples in
/-- C1, counterexample: in `txC1cex` the instructions at positions 2
and 3 are both recognized event instructions (consecutive), yet the
extractor produces a row for the second one (position 3): it pops the
action pushed at position 0, which the stack still holds.  This
refutes the claim that the second of two consecutive events never
produces a row. -/
theorem c1_counterexample :
    is_event (txC1cex.instructions.getD 2 ⟨"", none⟩) = true
      ∧ is_event (txC1cex.instructions.getD 3 ⟨"", none⟩) = true
      ∧ hasRowAt (convert e32c e64c txC1cex) 3 = true
      ∧ (convert e32c e64c txC1cex).trade_rows.length = 2 := by decide

open TransactionConverter in
/-- C1, amended: the pending actions form a growable stack, so the
second of two consecutive recognized event instructions at positions
`i` and `i + 1` pops the most recent not-yet-consumed earlier action,
which may lie before position `i`, and so may produce a row; when the
pending stack is empty at position `i + 1` (in particular when every
earlier instruction is itself an event) it produces no row. -/
theorem c1_second_event_no_row_when_stack_empty (e32 e64 : Bytes → String)
    (tx : Transaction) (i : Nat) (e0 e1 : Instruction)
    (h0 : tx.instructions.get? i = some e0)
    (h1 : tx.instructions.get? (i + 1) = some e1)
    (hev0 : is_event e0 = true) (hev1 : is_event e1 = true)
    (hstk : stackBefore tx (i + 1) = []) :
    hasRowAt (convert e32 e64 tx) (i + 1) = false :=
  second_event_no_row e32 e64 tx i e0 e1 h0 h1 hev0 hev1 hstk

open TransactionConverter Samples in
/-- C1, witness: two consecutive trade events with no preceding action
produce no row at position 1. -/
theorem c1_witness :
    (txC1wit.instructions.get? 0 = some instrTradeEvent
        ∧ txC1wit.instructions.get? 1 = some instrTradeEvent
        ∧ is_event instrTradeEvent = true
        ∧ stackBefore txC1wit 1 = [])
      ∧ hasRowAt (convert e32c e64c txC1wit) 1 = false :=
  ⟨⟨by decide, by decide, by decide, by decide⟩,
    c1_second_event_no_row_when_stack_empty e32c e64c txC1wit 0
      instrTradeEvent instrTradeEvent (by decide) (by decide) (by decide)
      (by decide) (by decide)⟩

open TransactionConverter Samples in
/-- C2, counterexample: a `PumpFunTradeEvent` whose popped action
carries a `PumpfunAmmBuy` payload — certainly not the expected
(action, event) pair — still yields a trade row, because the
non-AMM arms of `convert` never inspect the action's variant. -/
theorem c2_counterexample :
    (txC2cex.instructions.getD 1 ⟨"", none⟩).ty = "PumpFunTradeEvent"
      ∧ (txC2cex.instructions.getD 0 ⟨"", none⟩).parsed
          = some (Parsed.pumpfunAmmBuy ⟨none, true⟩)
      ∧ hasRowAt (convert e32c e64c txC2cex) 1 = true := by decide

open TransactionConverter in
/-- C2, amended: only the five AMM event types check the action's
parsed variant: for them, a variant mismatch drops the pairing (no row
is appended); for PumpFunTradeEvent, PumpFunCreateEvent and
PumpFunMigrateEvent the action's variant is not inspected — any parsed
payload on the action is accepted. -/
theorem c2_amm_variant_mismatch_drops (e32 e64 : Bytes → String)
    (tx : Transaction) (i : Nat) (ev prev : Instruction) (rest : List Instruction)
    (h0 : tx.instructions.get? i = some ev)
    (hstk : stackBefore tx i = prev :: rest)
    (hmis : amm_event_mismatch ev prev = true) :
    hasRowAt (convert e32 e64 tx) i = false :=
  amm_mismatch_no_row e32 e64 tx i ev prev rest h0 hstk hmis

open TransactionConverter Samples in
/-- C2, witness: an AMM buy event popped against a non-AMM action is
dropped. -/
theorem c2_witness :
    amm_event_mismatch instrAmmBuyEvent (instrOther "PumpFunBuy") = true
      ∧ hasRowAt (convert e32c e64c txC2wit) 1 = false :=
  ⟨by decide,
    c2_amm_variant_mismatch_drops e32c e64c txC2wit 1 instrAmmBuyEvent
      (instrOther "PumpFunBuy") [] (by decide) (by decide) (by decide)⟩

open TransactionConverter in
/-- C9: for the five AMM event kinds a row is appended only when the
matching AMM action variant is present AND its `accounts` field is
`Some`: with the matching variant but `accounts = None` the event is
silently dropped.  The three non-AMM kinds have no such condition: any
parsed payload on the popped action yields a row (when the event's own
payload matches its tag). -/
theorem c9_amm_accounts_guard :
    (∀ (e32 e64 : Bytes → String) (tx : Transaction) (i : Nat)
        (ev prev : Instruction) (rest : List Instruction),
      tx.instructions.get? i = some ev →
      stackBefore tx i = prev :: rest →
      amm_event_accounts_none ev prev = true →
      hasRowAt (convert e32 e64 tx) i = false)
    ∧ (∀ (e32 e64 : Bytes → String) (tx : Transaction) (i : Nat)
        (ev prev : Instruction) (rest : List Instruction)
        (te : TradeEvent) (q : Parsed),
      tx.instructions.get? i = some ev →
      stackBefore tx i = prev :: rest →
      ev.ty = "PumpFunTradeEvent" →
      ev.parsed = some (Parsed.pumpfunTradeEvent te) →
      prev.parsed = some q →
      hasRowAt (convert e32 e64 tx) i = true)
    ∧ (∀ (e32 e64 : Bytes → String) (tx : Transaction) (i : Nat)
        (ev prev : Instruction) (rest : List Instruction)
        (ce : CreateEvent) (q : Parsed),
      tx.instructions.get? i = some ev →
      stackBefore tx i = prev :: rest →
      ev.ty = "PumpFunCreateEvent" →
      ev.parsed = some (Parsed.pumpfunCreateEvent ce) →
      prev.parsed = some q →
      hasRowAt (convert e32 e64 tx) i = true)
    ∧ (∀ (e32 e64 : Bytes → String) (tx : Transaction) (i : Nat)
        (ev prev : Instruction) (rest : List Instruction)
        (me : MigrationEvent) (q : Parsed),
      tx.instructions.get? i = some ev →
      stackBefore tx i = prev :: rest →
      ev.ty = "PumpFunMigrateEvent" →
      ev.parsed = some (Parsed.pumpfunMigrationEvent me) →
      prev.parsed = some q →
      hasRowAt (convert e32 e64 tx) i = true) :=
  ⟨fun e32 e64 tx i ev prev rest h0 hstk hmis =>
      amm_accounts_none_no_row e32 e64 tx i ev prev rest h0 hstk hmis,
    fun e32 e64 tx i ev prev rest te q h0 hstk hty hep hpp =>
      trade_any_action_row e32 e64 tx i ev prev rest te q h0 hstk hty hep hpp,
    fun e32 e64 tx i ev prev rest ce q h0 hstk hty hep hpp =>
      create_any_action_row e32 e64 tx i ev prev rest ce q h0 hstk hty hep hpp,
    fun e32 e64 tx i ev prev rest me q h0 hstk hty hep hpp =>
      migrate_any_action_row e32 e64 tx i ev prev rest me q h0 hstk hty hep hpp⟩

open TransactionConverter Samples in
/-- C9, witness: an AMM buy pair with `accounts = None` is dropped,
while trade/create/migrate events paired with arbitrary parsed actions
produce rows. -/
theorem c9_witness :
    hasRowAt (convert e32c e64c txC9acc) 1 = false
      ∧ hasRowAt (convert e32c e64c txC2cex) 1 = true
      ∧ hasRowAt (convert e32c e64c txC9create) 1 = true
      ∧ hasRowAt (convert e32c e64c txC9migrate) 1 = true :=
  ⟨c9_amm_accounts_guard.1 e32c e64c txC9acc 1 instrAmmBuyEvent
      instrAmmBuyActionNone [] (by decide) (by decide) (by decide),
    c9_amm_accounts_guard.2.1 e32c e64c txC2cex 1 instrTradeEvent
      instrAmmBuyActionNone [] sampleTrade (Parsed.pumpfunAmmBuy ⟨none, true⟩)
      (by decide) (by decide) (by decide) (by decide) (by decide),
    c9_amm_accounts_guard.2.2.1 e32c e64c txC9create 1 instrCreateEvent
      (instrOther "PumpFunCreate") [] sampleCreate
      (Parsed.otherVariant "PumpFunCreate")
      (by decide) (by decide) (by decide) (by decide) (by decide),
    c9_amm_accounts_guard.2.2.2 e32c e64c txC9migrate 1 instrMigrateEvent
      (instrOther "PumpFunMigrate") [] sampleMigrate
      (Parsed.otherVariant "PumpFunMigrate")
      (by decide) (by decide) (by decide) (by decide) (by decide)⟩

/-- C5: evaluated on a log holding two completion records for the same
prefix (oldest first), `cleanup_log` keeps the FIRST line in file
order, i.e. the oldest entry — its forward writing pass keeps the first
occurrence per prefix, contradicting the claimed (and source-commented)
newest-entry retention. -/
theorem c5_cleanup_keeps_oldest :
    ProcessedTracker.cleanup_log Samples.c5Lines
      = ["2025-01-01T00:00:00+00:00,100_200,completed"] := by decide

/-- C10: a parquet file whose reader yields zero record batches makes
`read_parquet` return the "Parquet file is empty" error rather than an
empty batch, and `import_parquet` propagates that error for every
deserialize-and-insert continuation. -/
theorem c10_empty_parquet_errors :
    (∀ (α : Type) (concat_batches : List α → Except String α),
      ParquetHelper.read_parquet ([] : List (Except String α)) concat_batches
        = Except.error "Parquet file is empty")
    ∧ (∀ (α : Type) (concat_batches : List α → Except String α)
        (deserialize_and_insert : α → Except String Nat),
      ClickHouseImporter.import_parquet ([] : List (Except String α))
          concat_batches deserialize_and_insert
        = Except.error "Parquet file is empty") :=
  ⟨fun _ _ => rfl, fun _ _ _ => rfl⟩

theorem trade_arrow_roundtrip (rows : List PumpfunTradeEventV2) :
    PumpfunTradeEventV2.arrow_batch_to_vec (PumpfunTradeEventV2.vec_to_arrow_batch rows) = rows := by
  apply List.ext_getElem
  · simp [PumpfunTradeEventV2.arrow_batch_to_vec, PumpfunTradeEventV2.vec_to_arrow_batch]
  · intro i h1 h2
    simp [PumpfunTradeEventV2.arrow_batch_to_vec, PumpfunTradeEventV2.vec_to_arrow_batch,
      List.getD_eq_getElem?_getD, List.getElem?_eq_getElem, h2]

theorem create_arrow_roundtrip (rows : List PumpfunCreateEventV2) :
    PumpfunCreateEventV2.arrow_batch_to_vec (PumpfunCreateEventV2.vec_to_arrow_batch rows) = rows := by
  apply List.ext_getElem
  · simp [PumpfunCreateEventV2.arrow_batch_to_vec, PumpfunCreateEventV2.vec_to_arrow_batch]
  · intro i h1 h2
    simp [PumpfunCreateEventV2.arrow_batch_to_vec, PumpfunCreateEventV2.vec_to_arrow_batch,
      List.getD_eq_getElem?_getD, List.getElem?_eq_getElem, h2]

theorem migrate_arrow_roundtrip (rows : List PumpfunMigrateEventV2) :
    PumpfunMigrateEventV2.arrow_batch_to_vec (PumpfunMigrateEventV2.vec_to_arrow_batch rows) = rows := by
  apply List.ext_getElem
  · simp [PumpfunMigrateEventV2.arrow_batch_to_vec, PumpfunMigrateEventV2.vec_to_arrow_batch]
  · intro i h1 h2
    simp [PumpfunMigrateEventV2.arrow_batch_to_vec, PumpfunMigrateEventV2.vec_to_arrow_batch,
      List.getD_eq_getElem?_getD, List.getElem?_eq_getElem, h2]

theorem amm_buy_arrow_roundtrip (rows : List PumpfunAmmBuyEventV2) :
    PumpfunAmmBuyEventV2.arrow_batch_to_vec (PumpfunAmmBuyEventV2.vec_to_arrow_batch rows) = rows := by
  apply List.ext_getElem
  · simp [PumpfunAmmBuyEventV2.arrow_batch_to_vec, PumpfunAmmBuyEventV2.vec_to_arrow_batch]
  · intro i h1 h2
    simp [PumpfunAmmBuyEventV2.arrow_batch_to_vec, PumpfunAmmBuyEventV2.vec_to_arrow_batch,
      List.getD_eq_getElem?_getD, List.getElem?_eq_getElem, h2]

theorem amm_sell_arrow_roundtrip (rows : List PumpfunAmmSellEventV2) :
    PumpfunAmmSellEventV2.arrow_batch_to_vec (PumpfunAmmSellEventV2.vec_to_arrow_batch rows) = rows := by
  apply List.ext_getElem
  · simp [PumpfunAmmSellEventV2.arrow_batch_to_vec, PumpfunAmmSellEventV2.vec_to_arrow_batch]
  · intro i h1 h2
    simp [PumpfunAmmSellEventV2.arrow_batch_to_vec, PumpfunAmmSellEventV2.vec_to_arrow_batch,
      List.getD_eq_getElem?_getD, List.getElem?_eq_getElem, h2]

theorem amm_create_pool_arrow_roundtrip (rows : List PumpfunAmmCreatePoolEventV2) :
    PumpfunAmmCreatePoolEventV2.arrow_batch_to_vec (PumpfunAmmCreatePoolEventV2.vec_to_arrow_batch rows) = rows := by
  apply List.ext_getElem
  · simp [PumpfunAmmCreatePoolEventV2.arrow_batch_to_vec, PumpfunAmmCreatePoolEventV2.vec_to_arrow_batch]
  · intro i h1 h2
    simp [PumpfunAmmCreatePoolEventV2.arrow_batch_to_vec, PumpfunAmmCreatePoolEventV2.vec_to_arrow_batch,
      List.getD_eq_getElem?_getD, List.getElem?_eq_getElem, h2]

theorem amm_deposit_arrow_roundtrip (rows : List PumpfunAmmDepositEventV2) :
    PumpfunAmmDepositEventV2.arrow_batch_to_vec (PumpfunAmmDepositEventV2.vec_to_arrow_batch rows) = rows := by
  apply List.ext_getElem
  · simp [PumpfunAmmDepositEventV2.arrow_batch_to_vec, PumpfunAmmDepositEventV2.vec_to_arrow_batch]
  · intro i h1 h2
    simp [PumpfunAmmDepositEventV2.arrow_batch_to_vec, PumpfunAmmDepositEventV2.vec_to_arrow_batch,
      List.getD_eq_getElem?_getD, List.getElem?_eq_getElem, h2]

theorem amm_withdraw_arrow_roundtrip (rows : List PumpfunAmmWithdrawEventV2) :
    PumpfunAmmWithdrawEventV2.arrow_batch_to_vec (PumpfunAmmWithdrawEventV2.vec_to_arrow_batch rows) = rows := by
  apply List.ext_getElem
  · simp [PumpfunAmmWithdrawEventV2.arrow_batch_to_vec, PumpfunAmmWithdrawEventV2.vec_to_arrow_batch]
  · intro i h1 h2
    simp [PumpfunAmmWithdrawEventV2.arrow_batch_to_vec, PumpfunAmmWithdrawEventV2.vec_to_arrow_batch,
      List.getD_eq_getElem?_getD, List.getElem?_eq_getElem, h2]

/-- C8: for each of the eight event row types, converting a row list
to its columnar batch and back is the identity, field by field and
order-preserving. -/
theorem c8_arrow_batch_roundtrip :
    (∀ rows : List PumpfunTradeEventV2,
      PumpfunTradeEventV2.arrow_batch_to_vec
        (PumpfunTradeEventV2.vec_to_arrow_batch rows) = rows)
    ∧ (∀ rows : List PumpfunCreateEventV2,
      PumpfunCreateEventV2.arrow_batch_to_vec
        (PumpfunCreateEventV2.vec_to_arrow_batch rows) = rows)
    ∧ (∀ rows : List PumpfunMigrateEventV2,
      PumpfunMigrateEventV2.arrow_batch_to_vec
        (PumpfunMigrateEventV2.vec_to_arrow_batch rows) = rows)
    ∧ (∀ rows : List PumpfunAmmBuyEventV2,
      PumpfunAmmBuyEventV2.arrow_batch_to_vec
        (PumpfunAmmBuyEventV2.vec_to_arrow_batch rows) = rows)
    ∧ (∀ rows : List PumpfunAmmSellEventV2,
      PumpfunAmmSellEventV2.arrow_batch_to_vec
        (PumpfunAmmSellEventV2.vec_to_arrow_batch rows) = rows)
    ∧ (∀ rows : List PumpfunAmmCreatePoolEventV2,
      PumpfunAmmCreatePoolEventV2.arrow_batch_to_vec
        (PumpfunAmmCreatePoolEventV2.vec_to_arrow_batch rows) = rows)
    ∧ (∀ rows : List PumpfunAmmDepositEventV2,
      PumpfunAmmDepositEventV2.arrow_batch_to_vec
        (PumpfunAmmDepositEventV2.vec_to_arrow_batch rows) = rows)
    ∧ (∀ rows : List PumpfunAmmWithdrawEventV2,
      PumpfunAmmWithdrawEventV2.arrow_batch_to_vec
        (PumpfunAmmWithdrawEventV2.vec_to_arrow_batch rows) = rows) :=
  ⟨trade_arrow_roundtrip, create_arrow_roundtrip, migrate_arrow_roundtrip,
    amm_buy_arrow_roundtrip, amm_sell_arrow_roundtrip,
    amm_create_pool_arrow_roundtrip, amm_deposit_arrow_roundtrip,
    amm_withdraw_arrow_roundtrip⟩

namespace ProcessedTracker

theorem mem_setInsert_self (set : List String) (p : String) :
    p ∈ setInsert set p := by
  unfold setInsert
  split
  · next h => simpa using h
  · simp

theorem mem_setInsert_of_mem (set : List String) (p q : String) (h : p ∈ set) :
    p ∈ setInsert set q := by
  unfold setInsert
  split
  · exact h
  · simp [h]

theorem mem_loadStep_of_mem (set : List String) (line p : String) (h : p ∈ set) :
    p ∈ loadStep set line := by
  simp only [loadStep]
  split
  · exact h
  · split
    · exact mem_setInsert_of_mem _ _ _ h
    · exact h

theorem mem_foldl_loadStep_of_mem (lines : List String) (set : List String)
    (p : String) (h : p ∈ set) : p ∈ lines.foldl loadStep set := by
  induction lines generalizing set with
  | nil => exact h
  | cons l rest ih => exact ih _ (mem_loadStep_of_mem _ _ _ h)

theorem mem_loadStep_of_completion (set : List String) (line p : String)
    (h : isCompletionLineFor line p = true) : p ∈ loadStep set line := by
  simp only [isCompletionLineFor, Bool.and_eq_true, Bool.not_eq_true',
    beq_iff_eq, decide_eq_true_eq] at h
  obtain ⟨⟨hne, hnh⟩, ⟨hlen, hcomp⟩, hp⟩ := h
  simp only [loadStep]
  rw [if_neg (by simp [hne, hnh])]
  rw [if_pos (show _ = true by
    simp only [Bool.and_eq_true, decide_eq_true_eq, beq_iff_eq]
    exact ⟨hlen, hcomp⟩)]
  rw [hp]
  exact mem_setInsert_self _ _

theorem mem_foldl_load_of_any (lines : List String) (set : List String) (p : String)
    (h : lines.any (fun l => isCompletionLineFor l p) = true) :
    p ∈ lines.foldl loadStep set := by
  induction lines generalizing set with
  | nil => simp at h
  | cons l rest ih =>
    simp only [List.any_cons, Bool.or_eq_true] at h
    rcases h with h | h
    · exact mem_foldl_loadStep_of_mem rest _ p (mem_loadStep_of_completion _ _ _ h)
    · exact ih _ h

theorem mem_load_of_completion (lines : List String) (p : String)
    (h : lines.any (fun l => isCompletionLineFor l p) = true) :
    p ∈ load_processed_list lines :=
  mem_foldl_load_of_any lines [] p h

end ProcessedTracker

namespace BlockParserService

theorem pendingPairs_not_processed (pairs : List FilePair) (set : List String)
    (pr : FilePair) (h : pr ∈ pendingPairs pairs set) :
    ProcessedTracker.is_processed set pr.pfx = false := by
  unfold pendingPairs at h
  have := (List.mem_filter.mp h).2
  simpa using this

theorem runPending_marks_succeeded (outcome : String → Bool) :
    ∀ (l : List FilePair) (q : String), q ∈ (runPending outcome l).1 →
      outcome q = true := by
  intro l
  induction l with
  | nil => intro q hq; simp [runPending] at hq
  | cons pr rest ih =>
    intro q hq
    by_cases ho : outcome pr.pfx
    · simp only [runPending, ho, if_true, List.mem_cons] at hq
      rcases hq with rfl | hq
      · exact ho
      · exact ih q hq
    · simp [runPending, ho] at hq

end BlockParserService

/-- C6: a prefix with at least one completion record in the loaded log
is in the processed set (`is_processed` is true), every such pair is
filtered out of the pending list before any processing, and every
prefix that `process_pending_files` marks as processed (appends to the
log) had a successful per-unit processing outcome — processing that
fails panics before its mark is written. -/
theorem c6_completed_prefix_never_reprocessed (lines : List String)
    (pairs : List FilePair) (outcome : String → Bool) (p : String)
    (h : lines.any (fun l => ProcessedTracker.isCompletionLineFor l p) = true) :
    ProcessedTracker.is_processed (ProcessedTracker.load_processed_list lines) p = true
      ∧ (∀ pr ∈ BlockParserService.pendingPairs pairs
            (ProcessedTracker.load_processed_list lines), pr.pfx ≠ p)
      ∧ (∀ q ∈ (BlockParserService.process_pending_files pairs
            (ProcessedTracker.load_processed_list lines) outcome).1,
          outcome q = true) := by
  have hmem := ProcessedTracker.mem_load_of_completion lines p h
  have hproc : ProcessedTracker.is_processed
      (ProcessedTracker.load_processed_list lines) p = true := by
    unfold ProcessedTracker.is_processed
    simpa using hmem
  refine ⟨hproc, ?_, ?_⟩
  · intro pr hpr hpp
    have hnp := BlockParserService.pendingPairs_not_processed _ _ _ hpr
    rw [hpp] at hnp
    rw [hnp] at hproc
    exact Bool.false_ne_true hproc
  · intro q hq
    exact BlockParserService.runPending_marks_succeeded outcome _ q hq

open Samples in
/-- C6, witness: with one completion record for `100_200` and two
scanned pairs, `100_200` is processed, filtered out of the pending
list, and only successful outcomes are marked. -/
theorem c6_witness :
    (c6Lines.any (fun l => ProcessedTracker.isCompletionLineFor l "100_200") = true)
      ∧ (ProcessedTracker.is_processed
            (ProcessedTracker.load_processed_list c6Lines) "100_200" = true
          ∧ (∀ pr ∈ BlockParserService.pendingPairs c6Pairs
                (ProcessedTracker.load_processed_list c6Lines), pr.pfx ≠ "100_200")
          ∧ (∀ q ∈ (BlockParserService.process_pending_files c6Pairs
                (ProcessedTracker.load_processed_list c6Lines)
                (fun _ => true)).1, (fun _ : String => true) q = true)) :=
  ⟨by decide,
    c6_completed_prefix_never_reprocessed c6Lines c6Pairs (fun _ => true)
      "100_200" (by decide)⟩

namespace FileScanner

theorem any_keys_map_replace (m : List (String × String)) (k v p : String) :
    ((m.map (fun e => if e.1 == k then (k, v) else e)).any (fun e => e.1 == p))
      = m.any (fun e => e.1 == p) := by
  induction m with
  | nil => rfl
  | cons e rest ih =>
    simp only [List.map_cons, List.any_cons, ih]
    congr 1
    split
    · next hek => rw [beq_iff_eq] at hek; rw [← hek]
    · rfl

theorem keys_mapInsert (m : List (String × String)) (k v p : String) :
    ((mapInsert m k v).any (fun e => e.1 == p))
      = (m.any (fun e => e.1 == p) || (k == p)) := by
  unfold mapInsert
  split
  · next hk =>
    rw [any_keys_map_replace]
    by_cases hkp : k = p
    · subst hkp
      simp only [Bool.or_eq_true, beq_self_eq_true, Bool.or_true]
      simpa using hk
    · simp [hkp]
  · simp [List.any_append]

theorem keys_scanStep_meta (ms : List (String × String) × List (String × String))
    (e : DirEntry) (p : String) :
    ((scanStep ms e).1.any (fun kv => kv.1 == p))
      = (ms.1.any (fun kv => kv.1 == p) || isMetaEntryFor e p) := by
  by_cases hf : e.isFile
  · cases hex : extract_prefix_from_filename e.name with
    | none => simp [scanStep, isMetaEntryFor, hf, hex]
    | some q =>
      by_cases hm : RustStr.endsWith e.name ".meta"
      · simp [scanStep, isMetaEntryFor, hf, hex, hm, keys_mapInsert]
      · by_cases hb : RustStr.endsWith e.name ".bin"
        · simp [scanStep, isMetaEntryFor, hf, hex, hm, hb]
        · simp [scanStep, isMetaEntryFor, hf, hex, hm, hb]
  · have hf' : e.isFile = false := by simpa using hf
    simp [scanStep, isMetaEntryFor, hf']

theorem keys_scanStep_bin (ms : List (String × String) × List (String × String))
    (e : DirEntry) (p : String) :
    ((scanStep ms e).2.any (fun kv => kv.1 == p))
      = (ms.2.any (fun kv => kv.1 == p) || isBinEntryFor e p) := by
  by_cases hf : e.isFile
  · cases hex : extract_prefix_from_filename e.name with
    | none => simp [scanStep, isBinEntryFor, hf, hex]
    | some q =>
      by_cases hm : RustStr.endsWith e.name ".meta"
      · simp [scanStep, isBinEntryFor, hf, hex, hm]
      · by_cases hb : RustStr.endsWith e.name ".bin"
        · simp [scanStep, isBinEntryFor, hf, hex, hm, hb, keys_mapInsert]
        · simp [scanStep, isBinEntryFor, hf, hex, hm, hb]
  · have hf' : e.isFile = false := by simpa using hf
    simp [scanStep, isBinEntryFor, hf']

theorem keys_buildMaps_aux (entries : List DirEntry)
    (ms : List (String × String) × List (String × String)) (p : String) :
    ((entries.foldl scanStep ms).1.any (fun kv => kv.1 == p)
        = (ms.1.any (fun kv => kv.1 == p)
            || entries.any (fun e => isMetaEntryFor e p)))
      ∧ ((entries.foldl scanStep ms).2.any (fun kv => kv.1 == p)
        = (ms.2.any (fun kv => kv.1 == p)
            || entries.any (fun e => isBinEntryFor e p))) := by
  induction entries generalizing ms with
  | nil => simp
  | cons e rest ih =>
    simp only [List.foldl_cons, List.any_cons]
    obtain ⟨ih1, ih2⟩ := ih (scanStep ms e)
    constructor
    · rw [ih1, keys_scanStep_meta, Bool.or_assoc]
    · rw [ih2, keys_scanStep_bin, Bool.or_assoc]

theorem keys_buildMaps_meta (entries : List DirEntry) (p : String) :
    ((buildMaps entries).1.any (fun kv => kv.1 == p))
      = entries.any (fun e => isMetaEntryFor e p) := by
  have := (keys_buildMaps_aux entries ([], []) p).1
  simpa [buildMaps] using this

theorem keys_buildMaps_bin (entries : List DirEntry) (p : String) :
    ((buildMaps entries).2.any (fun kv => kv.1 == p))
      = entries.any (fun e => isBinEntryFor e p) := by
  have := (keys_buildMaps_aux entries ([], []) p).2
  simpa [buildMaps] using this

theorem mapGet_isSome (m : List (String × String)) (p : String) :
    (mapGet m p).isSome = m.any (fun kv => kv.1 == p) := by
  unfold mapGet
  induction m with
  | nil => rfl
  | cons kv rest ih =>
    simp only [List.find?_cons, List.any_cons]
    split
    · next h => simp [h]
    · next h => simp [h, ih]

theorem mem_pairs_fold (m2 : List (String × String)) (p : String) :
    ∀ (m1 : List (String × String)) (acc : List FilePair),
      (p ∈ (m1.foldl (pairStep m2) acc).map FilePair.pfx)
        ↔ (p ∈ acc.map FilePair.pfx
            ∨ (m1.any (fun kv => kv.1 == p) = true
                ∧ (mapGet m2 p).isSome = true)) := by
  intro m1
  induction m1 with
  | nil => simp
  | cons kv rest ih =>
    intro acc
    simp only [List.foldl_cons, List.any_cons, ih, Bool.or_eq_true]
    unfold pairStep
    by_cases hkp : kv.1 = p
    · subst hkp
      cases hg : mapGet m2 kv.1 with
      | none => simp [hg]
      | some b => simp [hg]
    · have hkp' : (kv.1 == p) = false := by simpa using hkp
      cases hg : mapGet m2 kv.1 with
      | none => simp [hg, hkp']
      | some b =>
        simp [hg, hkp', List.mem_append]
        constructor
        · rintro ((h | rfl) | h)
          · exact Or.inl h
          · exact absurd rfl hkp
          · exact Or.inr h
        · rintro (h | h)
          · exact Or.inl (Or.inl h)
          · exact Or.inr h

theorem mem_scan_iff (entries : List DirEntry) (p : String) :
    p ∈ (scan_available_files entries).map FilePair.pfx
      ↔ (entries.any (fun e => isMetaEntryFor e p) = true
          ∧ entries.any (fun e => isBinEntryFor e p) = true) := by
  unfold scan_available_files
  simp only [List.mem_map]
  constructor
  · rintro ⟨pr, hmem, rfl⟩
    rw [List.mem_insertionSort scanLe] at hmem
    have hx : pr.pfx ∈ ((buildMaps entries).1.foldl
        (pairStep (buildMaps entries).2) []).map FilePair.pfx :=
      List.mem_map.mpr ⟨pr, hmem, rfl⟩
    rw [mem_pairs_fold] at hx
    rcases hx with h | ⟨h1, h2⟩
    · simp at h
    · rw [keys_buildMaps_meta] at h1
      rw [mapGet_isSome, keys_buildMaps_bin] at h2
      exact ⟨h1, h2⟩
  · rintro ⟨h1, h2⟩
    have hmem : p ∈ ((buildMaps entries).1.foldl
        (pairStep (buildMaps entries).2) []).map FilePair.pfx := by
      rw [mem_pairs_fold]
      refine Or.inr ⟨?_, ?_⟩
      · rw [keys_buildMaps_meta]
        exact h1
      · rw [mapGet_isSome, keys_buildMaps_bin]
        exact h2
    obtain ⟨pr, hpr, hpfx⟩ := List.mem_map.mp hmem
    exact ⟨pr, (List.mem_insertionSort scanLe).mpr hpr, hpfx⟩

theorem scan_sorted_descending (entries : List DirEntry) :
    (scan_available_files entries).Pairwise scanLe := by
  unfold scan_available_files
  exact List.sorted_insertionSort scanLe _

theorem scan_sorted_strict (entries : List DirEntry)
    (hnd : ((scan_available_files entries).map startKey).Nodup) :
    ((scan_available_files entries).map startKey).Pairwise (· > ·) := by
  have hge : ((scan_available_files entries).map startKey).Pairwise (· ≥ ·) := by
    rw [List.pairwise_map]
    exact (scan_sorted_descending entries).imp (fun hab => hab)
  have hne : ((scan_available_files entries).map startKey).Pairwise (· ≠ ·) := hnd
  exact (hge.and hne).imp (fun ⟨hab, hne'⟩ => lt_of_le_of_ne hab (Ne.symm hne'))

end FileScanner


open FileScanner Samples in
/-- C3, counterexample: `trim_end_matches` strips repeated extensions,
so the directory `{a.meta.meta, a.bin, 1_2.meta, 1_2.bin, 1_3.meta,
1_3.bin}` makes the scanner return prefix `a` even though no file
`a.meta` exists (the spec-side characterization excludes it), and the
start-slot keys `[1, 1, 0]` of the returned list are not strictly
descending. -/
theorem c3_counterexample :
    ((scan_available_files exC3cex).map FilePair.pfx = ["1_2", "1_3", "a"])
      ∧ (specBothFilesPrefixes exC3cex = ["1_2", "1_3"])
      ∧ ((scan_available_files exC3cex).map startKey = [1, 1, 0]) := by decide

open FileScanner in
/-- C3, amended: `scan_available_files` returns exactly the prefixes
contributed to both the `.meta` map and the `.bin` map by regular-file
entries (for names with a single extension occurrence this is: both
`<prefix>.meta` and `<prefix>.bin` exist; a doubled extension also
strips), sorted descending by the parsed start slot with parse
failures treated as 0 — strictly descending when those keys are
pairwise distinct; on the spec's example directory it returns
`["300_400", "100_200"]`. -/
theorem c3_scan_selection_and_order :
    (∀ (entries : List DirEntry) (p : String),
      p ∈ (scan_available_files entries).map FilePair.pfx
        ↔ (entries.any (fun e => isMetaEntryFor e p) = true
            ∧ entries.any (fun e => isBinEntryFor e p) = true))
    ∧ (∀ entries : List DirEntry,
        (scan_available_files entries).Pairwise scanLe)
    ∧ (∀ entries : List DirEntry,
        ((scan_available_files entries).map startKey).Nodup →
        ((scan_available_files entries).map startKey).Pairwise (· > ·))
    ∧ (scan_available_files Samples.exScanSpec).map FilePair.pfx
        = ["300_400", "100_200"] :=
  ⟨mem_scan_iff, scan_sorted_descending, scan_sorted_strict, by decide⟩

open FileScanner Samples in
/-- C3, witness: on the spec's example directory the start-slot keys
are distinct, so the returned order is strictly descending, and the
membership characterization holds for `300_400`. -/
theorem c3_witness :
    (((scan_available_files exScanSpec).map startKey).Nodup
        ∧ ((scan_available_files exScanSpec).map startKey).Pairwise (· > ·))
      ∧ ("300_400" ∈ (scan_available_files exScanSpec).map FilePair.pfx
          ↔ (exScanSpec.any (fun e => isMetaEntryFor e "300_400") = true
              ∧ exScanSpec.any (fun e => isBinEntryFor e "300_400") = true)) :=
  ⟨⟨by decide, c3_scan_selection_and_order.2.2.1 exScanSpec (by decide)⟩,
    c3_scan_selection_and_order.1 exScanSpec "300_400"⟩

open FileScanner Samples in
/-- C4, counterexample: the pair `abc_def.meta` + `abc_def.bin`, both
regular files with a non-numeric start segment, IS selected by the
scanner — the returned list is `["abc_def"]`, not empty. -/
theorem c4_counterexample :
    (exC4cex.all (fun e => e.isFile) = true)
      ∧ (scan_available_files exC4cex).map FilePair.pfx = ["abc_def"] := by decide

open FileScanner in
/-- C4, amended: a complete file pair whose prefix has a non-numeric
start segment IS selected by the scanner; the sort merely treats its
start slot as 0 (`unwrap_or(0)`), placing it after every unit with a
positive start slot, as in `["123_456", "abc_def"]`. -/
theorem c4_nonnumeric_pair_selected :
    (∀ (entries : List DirEntry) (p : String),
      entries.any (fun e => isMetaEntryFor e p) = true →
      entries.any (fun e => isBinEntryFor e p) = true →
      p ∈ (scan_available_files entries).map FilePair.pfx)
    ∧ (∀ pr : FilePair, extract_start_slot pr.pfx = none → startKey pr = 0)
    ∧ (scan_available_files Samples.exC4wit).map FilePair.pfx
        = ["123_456", "abc_def"] :=
  ⟨fun entries p h1 h2 => (mem_scan_iff entries p).mpr ⟨h1, h2⟩,
    fun pr hn => by simp [startKey, hn],
    by decide⟩

open FileScanner Samples in
/-- C4, witness: the non-numeric pair is selected and its sort key is
0. -/
theorem c4_witness :
    ("abc_def" ∈ (scan_available_files exC4cex).map FilePair.pfx)
      ∧ startKey ⟨"abc_def", "abc_def.meta", "abc_def.bin"⟩ = 0 :=
  ⟨c4_nonnumeric_pair_selected.1 exC4cex "abc_def" (by decide) (by decide),
    c4_nonnumeric_pair_selected.2.1 ⟨"abc_def", "abc_def.meta", "abc_def.bin"⟩
      (by decide)⟩

namespace SyncChecker

theorem cntInsert_not_key (m : List (Nat × Nat)) (k v : Nat)
    (h : m.any (fun e => e.1 == k) = false) :
    cntInsert m k v = m ++ [(k, v)] := by
  unfold cntInsert
  simp [h]

theorem buildCounts_aux :
    ∀ (R m : List (Nat × Nat)), (R.map Prod.fst).Nodup →
      (∀ k ∈ R.map Prod.fst, m.any (fun e => e.1 == k) = false) →
      R.foldl (fun m hc => cntInsert m hc.1 hc.2) m = m ++ R := by
  intro R
  induction R with
  | nil => intro m _ _; simp
  | cons kv rest ih =>
    intro m hnd hdis
    simp only [List.map_cons, List.nodup_cons] at hnd
    obtain ⟨hk1, hnd'⟩ := hnd
    have hk : m.any (fun e => e.1 == kv.1) = false :=
      hdis kv.1 (by simp)
    simp only [List.foldl_cons, cntInsert_not_key m kv.1 kv.2 hk]
    rw [ih (m ++ [(kv.1, kv.2)]) hnd']
    · simp
    · intro k hkmem
      have h1 : m.any (fun e => e.1 == k) = false := by
        apply hdis
        simp [hkmem]
      have h2 : (kv.1 == k) = false := by
        have : kv.1 ≠ k := fun hc => hk1 (hc ▸ hkmem)
        simpa using this
      simp [List.any_append, h1, h2]

theorem buildCounts_eq_self (R : List (Nat × Nat))
    (hnd : (R.map Prod.fst).Nodup) : buildCounts R = R := by
  unfold buildCounts
  have := buildCounts_aux R [] hnd (fun k _ => rfl)
  simpa using this

theorem cntRemove_val (m : List (Nat × Nat)) (k : Nat) :
    ((cntRemove m k).1).getD 0 = lookupCount m k := by
  unfold cntRemove lookupCount
  cases h : m.find? (fun e => e.1 == k) <;> simp [h]

theorem cntRemove_snd (m : List (Nat × Nat)) (k : Nat) :
    (cntRemove m k).2 = m.filter (fun e => !(e.1 == k)) := by
  unfold cntRemove
  cases h : m.find? (fun e => e.1 == k) with
  | some kv => simp
  | none =>
    have hall := List.find?_eq_none.mp h
    simp only
    rw [eq_comm, List.filter_eq_self]
    intro e he
    simpa using hall e he

theorem lookup_filter_ne (m : List (Nat × Nat)) (k j : Nat) (hjk : j ≠ k) :
    lookupCount (m.filter (fun e => !(e.1 == k))) j = lookupCount m j := by
  unfold lookupCount
  induction m with
  | nil => rfl
  | cons e rest ih =>
    by_cases hek : (e.1 == k) = true
    · have hej : (e.1 == j) = false := by
        rw [beq_iff_eq] at hek
        simp only [beq_eq_false_iff_ne]
        exact fun hc => hjk (hc ▸ hek)
      simp only [List.filter_cons, hek, Bool.not_true, Bool.false_eq_true,
        if_false, List.find?_cons, hej, ih]
    · have hek' : (e.1 == k) = false := by simpa using hek
      by_cases hej : (e.1 == j) = true
      · simp only [List.filter_cons, hek', Bool.not_false, if_true,
          List.find?_cons, hej]
      · have hej' : (e.1 == j) = false := by simpa using hej
        simp only [List.filter_cons, hek', Bool.not_false, if_true,
          List.find?_cons, hej', ih]

end SyncChecker

namespace SyncChecker

theorem local_fold_spec :
    ∀ (L : List (Nat × Nat)) (Rm : List (Nat × Nat)) (acc : List Nat),
      (L.map Prod.fst).Nodup →
      L.foldl localStep (Rm, acc)
        = (Rm.filter (fun kv => !((L.map Prod.fst).contains kv.1)),
           acc ++ (L.filter
             (fun lc => !(lc.2 == lookupCount Rm lc.1))).map Prod.fst) := by
  intro L
  induction L with
  | nil => intro Rm acc _; simp
  | cons lc rest ih =>
    intro Rm acc hnd
    simp only [List.map_cons, List.nodup_cons] at hnd
    obtain ⟨hk1, hnd'⟩ := hnd
    simp only [List.foldl_cons]
    have hstep : localStep (Rm, acc) lc
        = (Rm.filter (fun e => !(e.1 == lc.1)),
           if lc.2 ≠ lookupCount Rm lc.1 then acc ++ [lc.1] else acc) := by
      unfold localStep
      simp only [cntRemove_val, cntRemove_snd]
      split <;> rfl
    rw [hstep]
    by_cases hd : lc.2 = lookupCount Rm lc.1
    · rw [if_neg (by simpa using hd)]
      rw [ih _ acc hnd']
      have hpred : (Rm.filter (fun e => !(e.1 == lc.1))).filter
          (fun kv => !((rest.map Prod.fst).contains kv.1))
            = Rm.filter
              (fun kv => !(((lc :: rest).map Prod.fst).contains kv.1)) := by
        rw [List.filter_filter]
        apply List.filter_congr
        intro kv _
        simp only [List.map_cons, List.contains_cons, Bool.not_or]
        rw [Bool.and_comm]
      have hlook : rest.filter
          (fun lc' => !(lc'.2 == lookupCount
            (Rm.filter (fun e => !(e.1 == lc.1))) lc'.1))
            = rest.filter (fun lc' => !(lc'.2 == lookupCount Rm lc'.1)) := by
        apply List.filter_congr
        intro lc' hmem
        have hne : lc'.1 ≠ lc.1 := by
          intro hc
          exact hk1 (hc ▸ List.mem_map_of_mem Prod.fst hmem)
        rw [lookup_filter_ne Rm lc.1 lc'.1 hne]
      rw [hpred, hlook]
      have hfc : (lc :: rest).filter
          (fun lc' => !(lc'.2 == lookupCount Rm lc'.1))
            = rest.filter (fun lc' => !(lc'.2 == lookupCount Rm lc'.1)) := by
        rw [List.filter_cons]
        have : (!(lc.2 == lookupCount Rm lc.1)) = false := by simp [hd]
        simp [this]
      rw [hfc]
    · rw [if_pos hd]
      rw [ih _ (acc ++ [lc.1]) hnd']
      have hpred : (Rm.filter (fun e => !(e.1 == lc.1))).filter
          (fun kv => !((rest.map Prod.fst).contains kv.1))
            = Rm.filter
              (fun kv => !(((lc :: rest).map Prod.fst).contains kv.1)) := by
        rw [List.filter_filter]
        apply List.filter_congr
        intro kv _
        simp only [List.map_cons, List.contains_cons, Bool.not_or]
        rw [Bool.and_comm]
      have hlook : rest.filter
          (fun lc' => !(lc'.2 == lookupCount
            (Rm.filter (fun e => !(e.1 == lc.1))) lc'.1))
            = rest.filter (fun lc' => !(lc'.2 == lookupCount Rm lc'.1)) := by
        apply List.filter_congr
        intro lc' hmem
        have hne : lc'.1 ≠ lc.1 := by
          intro hc
          exact hk1 (hc ▸ List.mem_map_of_mem Prod.fst hmem)
        rw [lookup_filter_ne Rm lc.1 lc'.1 hne]
      rw [hpred, hlook]
      have hfc : (lc :: rest).filter
          (fun lc' => !(lc'.2 == lookupCount Rm lc'.1))
            = lc :: rest.filter (fun lc' => !(lc'.2 == lookupCount Rm lc'.1)) := by
        rw [List.filter_cons]
        have : (!(lc.2 == lookupCount Rm lc.1)) = true := by simpa using hd
        simp [this]
      rw [hfc]
      simp

end SyncChecker

namespace SyncChecker

theorem leftover_fold_spec :
    ∀ (m : List (Nat × Nat)) (ds : List Nat),
      (m.map Prod.fst).Nodup →
      (∀ k ∈ m.map Prod.fst, ds.contains k = false) →
      m.foldl leftoverStep ds = ds ++ m.map Prod.fst := by
  intro m
  induction m with
  | nil => intro ds _ _; simp
  | cons kv rest ih =>
    intro ds hnd hdis
    simp only [List.map_cons, List.nodup_cons] at hnd
    obtain ⟨hk1, hnd'⟩ := hnd
    have hc : ds.contains kv.1 = false := hdis kv.1 (by simp)
    simp only [List.foldl_cons, leftoverStep, hc, Bool.false_eq_true, if_false]
    rw [ih (ds ++ [kv.1]) hnd']
    · simp
    · intro k hkmem
      have h1 : ds.contains k = false := hdis k (by simp [hkmem])
      have h2 : (k == kv.1) = false := by
        have : k ≠ kv.1 := fun hc2 => hk1 (hc2 ▸ hkmem)
        simpa using this
      simp only [Bool.eq_false_iff] at h1 ⊢
      intro hcon
      simp only [List.contains_eq_any_beq, List.any_append, Bool.or_eq_true,
        List.any_cons, List.any_nil, Bool.or_false] at hcon
      rcases hcon with hcon | hcon
      · exact h1 (by simpa [List.contains_eq_any_beq] using hcon)
      · rw [hcon] at h2
        simp at h2

theorem lookup_eq_zero_of_not_mem (m : List (Nat × Nat)) (h : Nat)
    (hnm : h ∉ m.map Prod.fst) : lookupCount m h = 0 := by
  unfold lookupCount
  have : m.find? (fun e => e.1 == h) = none := by
    rw [List.find?_eq_none]
    intro e he
    simp only [beq_iff_eq]
    exact fun hc => hnm (hc ▸ List.mem_map_of_mem Prod.fst he)
  simp [this]

theorem lookup_of_mem_nodup (m : List (Nat × Nat)) (kv : Nat × Nat)
    (hnd : (m.map Prod.fst).Nodup) (hmem : kv ∈ m) :
    lookupCount m kv.1 = kv.2 := by
  unfold lookupCount
  induction m with
  | nil => simp at hmem
  | cons e rest ih =>
    simp only [List.map_cons, List.nodup_cons] at hnd
    obtain ⟨hk1, hnd'⟩ := hnd
    rcases List.mem_cons.mp hmem with rfl | hmem'
    · simp [List.find?_cons]
    · have hne : (e.1 == kv.1) = false := by
        have : e.1 ≠ kv.1 := by
          intro hc
          exact hk1 (hc ▸ List.mem_map_of_mem Prod.fst hmem')
        simpa using this
      simp only [List.find?_cons, hne]
      exact ih hnd' hmem'

theorem mem_of_lookup_ne_zero (m : List (Nat × Nat)) (h : Nat)
    (hl : lookupCount m h ≠ 0) : h ∈ m.map Prod.fst := by
  by_contra hnm
  exact hl (lookup_eq_zero_of_not_mem m h hnm)

end SyncChecker

namespace SyncChecker

theorem compare_hourly_eq (L R : List (Nat × Nat))
    (hL : (L.map Prod.fst).Nodup) (hR : (R.map Prod.fst).Nodup) :
    compare_hourly L R
      = (((L.filter (fun lc => !(lc.2 == lookupCount R lc.1))).map Prod.fst
          ++ (R.filter
              (fun kv => !((L.map Prod.fst).contains kv.1))).map Prod.fst)
        ).insertionSort (· ≤ ·) := by
  unfold compare_hourly
  rw [buildCounts_eq_self R hR, local_fold_spec L R [] hL]
  simp only [List.nil_append]
  rw [leftover_fold_spec]
  · have hsub : List.Sublist
        ((R.filter (fun kv => !((L.map Prod.fst).contains kv.1))).map Prod.fst)
        (R.map Prod.fst) :=
      (List.filter_sublist R).map Prod.fst
    exact hR.sublist hsub
  · intro k hk
    obtain ⟨kv, hkv, rfl⟩ := List.mem_map.mp hk
    have hkv2 := List.mem_filter.mp hkv
    have hknotL : ((L.map Prod.fst).contains kv.1) = false := by
      have := hkv2.2
      simpa using this
    rw [Bool.eq_false_iff]
    intro hcon
    have hmemld : kv.1 ∈ (L.filter
        (fun lc => !(lc.2 == lookupCount R lc.1))).map Prod.fst := by
      simpa [List.contains_eq_any_beq, List.any_eq_true, beq_iff_eq] using hcon
    obtain ⟨lc, hlc, hlceq⟩ := List.mem_map.mp hmemld
    have hlcL : lc ∈ L := (List.mem_filter.mp hlc).1
    have : kv.1 ∈ L.map Prod.fst := hlceq ▸ List.mem_map_of_mem Prod.fst hlcL
    rw [Bool.eq_false_iff] at hknotL
    exact hknotL (by simpa [List.contains_eq_any_beq, List.any_eq_true,
      beq_iff_eq] using this)

end SyncChecker

open SyncChecker in
/-- C7: compare_hourly, given valid GROUP-BY results from both sides
(distinct buckets, positive uniqExact counts on the remote side),
returns exactly the hour buckets whose local and remote counts differ
with a missing bucket compared against 0, sorted strictly ascending. -/
theorem c7_compare_hourly_diff_buckets (L R : List (Nat × Nat))
    (hL : (L.map Prod.fst).Nodup) (hR : (R.map Prod.fst).Nodup)
    (hpos : ∀ kv ∈ R, 0 < kv.2) :
    (∀ h, h ∈ compare_hourly L R ↔ lookupCount L h ≠ lookupCount R h)
      ∧ (compare_hourly L R).Pairwise (· < ·) := by
  set ld : List Nat :=
    (L.filter (fun lc => !(lc.2 == lookupCount R lc.1))).map Prod.fst with hlddef
  set lo : List Nat :=
    (R.filter (fun kv => !((L.map Prod.fst).contains kv.1))).map Prod.fst with hlodef
  have hld : ∀ h : Nat,
      h ∈ ld ↔ (h ∈ L.map Prod.fst ∧ lookupCount L h ≠ lookupCount R h) := by
    intro h
    rw [hlddef]
    constructor
    · intro hmem
      obtain ⟨lc, hlc, rfl⟩ := List.mem_map.mp hmem
      obtain ⟨hlcL, hlcne⟩ := List.mem_filter.mp hlc
      have hlook : lookupCount L lc.1 = lc.2 := lookup_of_mem_nodup L lc hL hlcL
      refine ⟨List.mem_map_of_mem Prod.fst hlcL, ?_⟩
      rw [hlook]
      simpa using hlcne
    · rintro ⟨hmem, hne⟩
      obtain ⟨lc, hlcL, rfl⟩ := List.mem_map.mp hmem
      have hlook : lookupCount L lc.1 = lc.2 := lookup_of_mem_nodup L lc hL hlcL
      refine List.mem_map_of_mem Prod.fst (List.mem_filter.mpr ⟨hlcL, ?_⟩)
      rw [hlook] at hne
      simpa using hne
  have hlo : ∀ h : Nat,
      h ∈ lo ↔ (h ∉ L.map Prod.fst ∧ h ∈ R.map Prod.fst) := by
    intro h
    rw [hlodef]
    constructor
    · intro hmem
      obtain ⟨kv, hkv, rfl⟩ := List.mem_map.mp hmem
      obtain ⟨hkvR, hkvnc⟩ := List.mem_filter.mp hkv
      refine ⟨?_, List.mem_map_of_mem Prod.fst hkvR⟩
      intro hcon
      rw [Bool.not_eq_true', Bool.eq_false_iff] at hkvnc
      exact hkvnc (by simpa [List.contains_eq_any_beq, List.any_eq_true,
        beq_iff_eq] using hcon)
    · rintro ⟨hnm, hmem⟩
      obtain ⟨kv, hkvR, rfl⟩ := List.mem_map.mp hmem
      refine List.mem_map_of_mem Prod.fst (List.mem_filter.mpr ⟨hkvR, ?_⟩)
      rw [Bool.not_eq_true', Bool.eq_false_iff]
      intro hcon
      exact hnm (by simpa [List.contains_eq_any_beq, List.any_eq_true,
        beq_iff_eq] using hcon)
  have hmemiff : ∀ h : Nat,
      h ∈ (ld ++ lo) ↔ lookupCount L h ≠ lookupCount R h := by
    intro h
    rw [List.mem_append, hld, hlo]
    constructor
    · rintro (⟨_, hne⟩ | ⟨hnm, hmem⟩)
      · exact hne
      · obtain ⟨kv, hkvR, rfl⟩ := List.mem_map.mp hmem
        have h0 : lookupCount L kv.1 = 0 := lookup_eq_zero_of_not_mem L kv.1 hnm
        have hv : lookupCount R kv.1 = kv.2 := lookup_of_mem_nodup R kv hR hkvR
        rw [h0, hv]
        have := hpos kv hkvR
        omega
    · intro hne
      by_cases hmem : h ∈ L.map Prod.fst
      · exact Or.inl ⟨hmem, hne⟩
      · refine Or.inr ⟨hmem, ?_⟩
        have h0 : lookupCount L h = 0 := lookup_eq_zero_of_not_mem L h hmem
        rw [h0] at hne
        exact mem_of_lookup_ne_zero R h (Ne.symm hne)
  have hnd : (ld ++ lo).Nodup := by
    refine List.Nodup.append ?_ ?_ ?_
    · rw [hlddef]
      exact hL.sublist ((List.filter_sublist L).map Prod.fst)
    · rw [hlodef]
      exact hR.sublist ((List.filter_sublist R).map Prod.fst)
    · intro a ha hb
      have h1 := ((hld a).mp ha).1
      have h2 := ((hlo a).mp hb).1
      exact h2 h1
  have hceq : compare_hourly L R = (ld ++ lo).insertionSort (· ≤ ·) :=
    compare_hourly_eq L R hL hR
  constructor
  · intro h
    rw [hceq, List.mem_insertionSort (· ≤ ·)]
    exact hmemiff h
  · rw [hceq]
    have hsorted : ((ld ++ lo).insertionSort (· ≤ ·)).Pairwise (· ≤ ·) :=
      List.sorted_insertionSort (· ≤ ·) _
    have hndp : ((ld ++ lo).insertionSort (· ≤ ·)).Nodup :=
      ((List.perm_insertionSort (· ≤ ·) _).nodup_iff).mpr hnd
    exact (hsorted.and hndp).imp (fun hab => lt_of_le_of_ne hab.1 hab.2)


open SyncChecker Samples in
/-- C7, witness: local hours {3600: 5, 7200: 7} against remote hours
{3600: 5, 10800: 2} — the differing buckets are exactly 7200 (7 vs 0)
and 10800 (0 vs 2), in ascending order. -/
theorem c7_witness :
    ((c7Local.map Prod.fst).Nodup ∧ (c7Remote.map Prod.fst).Nodup
        ∧ (∀ kv ∈ c7Remote, 0 < kv.2))
      ∧ ((∀ h, h ∈ compare_hourly c7Local c7Remote
            ↔ lookupCount c7Local h ≠ lookupCount c7Remote h)
          ∧ (compare_hourly c7Local c7Remote).Pairwise (· < ·)) :=
  ⟨⟨by decide, by decide, by decide⟩,
    c7_compare_hourly_diff_buckets c7Local c7Remote (by decide) (by decide)
      (by decide)⟩
